import Mathlib

/-!
Verification of the analytics / anomaly-detection core of an energy-management
platform.  The Python source (pandas/numpy over an SQLite time-series store) is
shallowly embedded: a reading becomes a `Row`, the store a `List Row`,
timestamps rational numbers measured in hours on an absolute axis, and each
analytic routine a pure Lean function mirroring the corresponding Python
function statement by statement.  Floating-point arithmetic is modelled by
exact rational arithmetic; `numpy`/`pandas` half-to-even rounding (`round(n)`)
is modelled exactly by `roundHE`.
-/

namespace EnergyPlatform

/-- One consumption observation, mirroring rows of the `energy_data` table
(`device_name`, `consumption` in kWh, `timestamp`).  The `source` column is
provenance only and is read by none of the analytic routines, so it is
omitted from the embedding.  Timestamps are rational hours. -/
structure Row where
  device : String
  consumption : ℚ
  timestamp : ℚ
deriving Repr, DecidableEq

/-- Severity values used by the anomaly detectors. -/
inductive Severity
  | low
  | medium
  | high
deriving Repr, DecidableEq

/-- The `type` field of an anomaly dict. -/
inductive AnomalyType
  | statisticalOutlier
  | highUsage
  | deviceInactive
  | consumptionDrop
  | patternDeviation
deriving Repr, DecidableEq

/-- The human-readable `message` f-strings, embedded as the numeric data they
interpolate (decimal formatting of the numbers is presentation only).  The
statistical-outlier message interpolates the z-score; since the z-score is a
square root we carry its square `zSq = (x-mean)^2/variance`, which determines
it. -/
inductive Message
  | unusualConsumption (value zSq : ℚ)
  | highUsageMsg (value threshold : ℚ)
  | inactiveMsg (hoursInactive : ℚ)
  | dropMsg (recentAvg historicalAvg : ℚ)
  | patternMsg (hour : ℤ) (recentVal historicalVal : ℚ)
deriving Repr, DecidableEq

/-- One anomaly record as produced by a detector.  The Python dicts carry the
five common keys modelled here; the detector-specific numeric evidence keys
(`value`, `expected`, `z_score`, `threshold`, `ratio`, ...) are exactly the
numbers already carried by `message`. -/
structure Anomaly where
  device : String
  atype : AnomalyType
  message : Message
  timestamp : ℚ
  severity : Severity
deriving Repr, DecidableEq

/-- Arithmetic mean of a list (pandas `.mean()`); junk value 0 on the empty
list, on which the source never uses it. -/
def qmean (l : List ℚ) : ℚ := l.sum / l.length

/-- Sample variance with `ddof = 1`, i.e. the square of pandas `.std()`.
Division by zero (singleton list) yields 0 in `ℚ`, which makes the
`std == 0` guard of the source skip such a device, exactly as the NaN
produced by pandas makes every later comparison false. -/
def sampleVar (l : List ℚ) : ℚ :=
  ((l.map (fun x => (x - qmean l) ^ 2)).sum) / ((l.length : ℚ) - 1)

/-- Half-to-even rounding to the nearest integer, the rounding mode of
`numpy.round` / pandas `.round` / Python 3 `round`. -/
def roundHE (q : ℚ) : ℤ :=
  if q - (⌊q⌋ : ℚ) < 1 / 2 then ⌊q⌋
  else if 1 / 2 < q - (⌊q⌋ : ℚ) then ⌊q⌋ + 1
  else if ⌊q⌋ % 2 = 0 then ⌊q⌋ else ⌊q⌋ + 1

/-- `x.round(d)`: half-to-even rounding to `d` decimal places. -/
def roundDec (d : ℕ) (q : ℚ) : ℚ := (roundHE (q * 10 ^ d) : ℚ) / 10 ^ d

/-- Configuration default `HIGH_USAGE_THRESHOLD` (kWh). -/
def HIGH_USAGE_THRESHOLD : ℚ := 5

/-- Configuration default `ANOMALY_DETECTION_THRESHOLD` (z-score multiplier). -/
def ANOMALY_DETECTION_THRESHOLD : ℚ := 2

/-- Configuration default `ENERGY_COST_PER_KWH`. -/
def ENERGY_COST_PER_KWH : ℚ := 12 / 100

/-- `data[data['timestamp'] >= cutoff_time]` with
`cutoff_time = datetime.now() - timedelta(hours=hours_back)`. -/
def recentRows (now hoursBack : ℚ) (data : List Row) : List Row :=
  data.filter (fun r => now - hoursBack ≤ r.timestamp)

/-- The anomaly dict appended by `_detect_high_usage` for one offending row. -/
def mkHighUsage (thr : ℚ) (r : Row) : Anomaly :=
  { device := r.device
    atype := .highUsage
    message := .highUsageMsg r.consumption thr
    timestamp := r.timestamp
    severity := if thr * 2 < r.consumption then .high else .medium }

/-- `_detect_high_usage`: every recent row whose consumption strictly exceeds
the threshold is flagged. -/
def detectHighUsage (thr now hoursBack : ℚ) (data : List Row) : List Anomaly :=
  (recentRows now hoursBack data).filterMap (fun r =>
    if thr < r.consumption then some (mkHighUsage thr r) else none)

theorem mem_recentRows {now hoursBack : ℚ} {data : List Row} {r : Row}
    (hmem : r ∈ data) (hrec : now - hoursBack ≤ r.timestamp) :
    r ∈ recentRows now hoursBack data :=
  List.mem_filter.mpr ⟨hmem, by simp only [decide_eq_true_eq]; exact hrec⟩

/-- C3: high-usage detection compares every recent reading strictly against
the threshold; a reading equal to the threshold is not flagged, and a flagged
reading has severity `high` exactly when it exceeds twice the threshold,
`medium` otherwise. -/
theorem detectHighUsage_strict (thr now hoursBack : ℚ) (data : List Row) (r : Row)
    (hmem : r ∈ data) (hrec : now - hoursBack ≤ r.timestamp) :
    (mkHighUsage thr r ∈ detectHighUsage thr now hoursBack data ↔ thr < r.consumption)
    ∧ ((mkHighUsage thr r).severity = Severity.high ↔ thr * 2 < r.consumption)
    ∧ ((mkHighUsage thr r).severity = Severity.medium ↔ ¬ thr * 2 < r.consumption) := by
  have hrecmem : r ∈ recentRows now hoursBack data := mem_recentRows hmem hrec
  refine ⟨⟨?_, ?_⟩, ?_, ?_⟩
  · intro h
    rcases List.mem_filterMap.mp h with ⟨r', _, hf⟩
    by_cases hc : thr < r'.consumption
    · rw [if_pos hc, Option.some.injEq] at hf
      have hcons := congrArg Anomaly.message hf
      simp only [mkHighUsage, Message.highUsageMsg.injEq] at hcons
      linarith [hcons.1 ▸ hc]
    · rw [if_neg hc] at hf
      exact absurd hf (Option.noConfusion)
  · intro h
    exact List.mem_filterMap.mpr ⟨r, hrecmem, by rw [if_pos h]⟩
  · constructor
    · intro h
      by_contra hc
      simp [mkHighUsage, hc] at h
    · intro h
      simp [mkHighUsage, h]
  · constructor
    · intro h
      by_contra hc
      simp [mkHighUsage, hc] at h
    · intro h
      simp [mkHighUsage, h]

/-- Witness for C3 at the default 5.0 kWh threshold: 5.01 is flagged medium,
5.0 is not flagged, 10.01 is flagged high. -/
theorem detectHighUsage_strict_witness :
    (mkHighUsage 5 ⟨"d", 5.01, 0⟩ ∈ detectHighUsage 5 0 24 [⟨"d", 5.01, 0⟩]
      ∧ (mkHighUsage 5 ⟨"d", 5.01, 0⟩).severity = Severity.medium)
    ∧ mkHighUsage 5 ⟨"d", 5, 0⟩ ∉ detectHighUsage 5 0 24 [⟨"d", 5, 0⟩]
    ∧ (mkHighUsage 5 ⟨"d", 10.01, 0⟩ ∈ detectHighUsage 5 0 24 [⟨"d", 10.01, 0⟩]
      ∧ (mkHighUsage 5 ⟨"d", 10.01, 0⟩).severity = Severity.high) := by
  have h1 := detectHighUsage_strict 5 0 24 [⟨"d", 5.01, 0⟩] ⟨"d", 5.01, 0⟩
    (List.mem_singleton.mpr rfl) (by norm_num)
  have h2 := detectHighUsage_strict 5 0 24 [⟨"d", 5, 0⟩] ⟨"d", 5, 0⟩
    (List.mem_singleton.mpr rfl) (by norm_num)
  have h3 := detectHighUsage_strict 5 0 24 [⟨"d", 10.01, 0⟩] ⟨"d", 10.01, 0⟩
    (List.mem_singleton.mpr rfl) (by norm_num)
  refine ⟨⟨h1.1.mpr (by norm_num), h1.2.2.mpr (by norm_num)⟩,
    fun hm => absurd (h2.1.mp hm) (by norm_num),
    h3.1.mpr (by norm_num), h3.2.1.mpr (by norm_num)⟩

/-- `data[data['device_name'] == device_name]`. -/
def deviceRows (data : List Row) (d : String) : List Row :=
  data.filter (fun r => r.device = d)

/-- `data['device_name'].unique()`: the distinct device names.  (pandas keeps
first-appearance order, `dedup` keeps last occurrences; only the processing
order of devices differs, and all theorems below are about membership and
counts, which are order-independent.) -/
def uniqueDevices (data : List Row) : List String :=
  (data.map (·.device)).dedup

/-- `z_score > m` for `z_score = |x - mean| / std`, expressed without the
square root: when `m < 0` the comparison always holds, and for `m ≥ 0` (and
`std > 0`) it is equivalent to `(x - mean)^2 > m^2 * var`.  This is exactly
the source's comparison for every value of the configured multiplier. -/
def zExceeds (x mn v m : ℚ) : Prop := m < 0 ∨ m ^ 2 * v < (x - mn) ^ 2

instance (x mn v m : ℚ) : Decidable (zExceeds x mn v m) :=
  inferInstanceAs (Decidable (m < 0 ∨ m ^ 2 * v < (x - mn) ^ 2))

theorem zExceeds_of_nonneg {x mn v m : ℚ} (hm : 0 ≤ m) :
    zExceeds x mn v m ↔ m ^ 2 * v < (x - mn) ^ 2 :=
  ⟨fun h => h.resolve_left (not_lt.mpr hm), fun h => Or.inr h⟩

/-- The anomaly dict appended by `_detect_statistical_anomalies` for one
outlier row of device `d` with historical mean `mn` and variance `v`. -/
def mkStatOutlier (thrM : ℚ) (d : String) (mn v : ℚ) (r : Row) : Anomaly :=
  { device := d
    atype := .statisticalOutlier
    message := .unusualConsumption r.consumption ((r.consumption - mn) ^ 2 / v)
    timestamp := r.timestamp
    severity := if zExceeds r.consumption mn v (thrM * (3 / 2)) then .high
                else .medium }

/-- `_detect_statistical_anomalies`: per device with at least 10 data points
(in the full baseline window) and non-zero std, flag every recent reading of
that device whose z-score exceeds the threshold multiplier. -/
def detectStatistical (thrM now hoursBack : ℚ) (data : List Row) : List Anomaly :=
  if data.length < 10 then []
  else
    (uniqueDevices data).flatMap (fun d =>
      let dd := deviceRows data d
      let rdd := deviceRows (recentRows now hoursBack data) d
      if dd.length < 10 ∨ rdd = [] then []
      else
        let mn := qmean (dd.map (·.consumption))
        let v := sampleVar (dd.map (·.consumption))
        if v = 0 then []
        else
          rdd.filterMap (fun r =>
            if zExceeds r.consumption mn v thrM then some (mkStatOutlier thrM d mn v r)
            else none))

theorem sampleVar_nonneg (l : List ℚ) : 0 ≤ sampleVar l := by
  unfold sampleVar
  rcases l with _ | ⟨x, xs⟩
  · simp
  · apply div_nonneg
    · apply List.sum_nonneg
      intro q hq
      rcases List.mem_map.mp hq with ⟨y, _, rfl⟩
      positivity
    · simp only [List.length_cons]
      push_cast
      linarith [Nat.cast_nonneg (α := ℚ) xs.length]

theorem mem_detectStatistical {thrM now hb : ℚ} {data : List Row} {a : Anomaly} :
    a ∈ detectStatistical thrM now hb data ↔
      10 ≤ data.length ∧
      ∃ d r, r ∈ data ∧ r.device = d ∧ now - hb ≤ r.timestamp ∧
        10 ≤ (deviceRows data d).length ∧
        sampleVar ((deviceRows data d).map (·.consumption)) ≠ 0 ∧
        zExceeds r.consumption (qmean ((deviceRows data d).map (·.consumption)))
          (sampleVar ((deviceRows data d).map (·.consumption))) thrM ∧
        a = mkStatOutlier thrM d (qmean ((deviceRows data d).map (·.consumption)))
          (sampleVar ((deviceRows data d).map (·.consumption))) r := by
  unfold detectStatistical
  by_cases hlen : data.length < 10
  · rw [if_pos hlen]
    simp only [List.not_mem_nil, false_iff, not_and]
    intro hge
    omega
  · rw [if_neg hlen]
    constructor
    · intro h
      rcases List.mem_flatMap.mp h with ⟨d, _, hin⟩
      simp only at hin
      by_cases hg : (deviceRows data d).length < 10 ∨ deviceRows (recentRows now hb data) d = []
      · rw [if_pos hg] at hin
        exact absurd hin (List.not_mem_nil a)
      · rw [if_neg hg] at hin
        by_cases hv : sampleVar ((deviceRows data d).map (·.consumption)) = 0
        · rw [if_pos hv] at hin
          exact absurd hin (List.not_mem_nil a)
        · rw [if_neg hv] at hin
          rcases List.mem_filterMap.mp hin with ⟨r, hr, hf⟩
          by_cases hz : zExceeds r.consumption
              (qmean ((deviceRows data d).map (·.consumption)))
              (sampleVar ((deviceRows data d).map (·.consumption))) thrM
          · rw [if_pos hz, Option.some.injEq] at hf
            have hr1 := List.mem_filter.mp hr
            have hr2 := List.mem_filter.mp hr1.1
            refine ⟨le_of_not_lt hlen, d, r, hr2.1, ?_, ?_,
              le_of_not_lt (fun hc => hg (Or.inl hc)), hv, hz, hf.symm⟩
            · simpa using hr1.2
            · simpa using hr2.2
          · rw [if_neg hz] at hf
            exact absurd hf Option.noConfusion
    · rintro ⟨_, d, r, hrd, hdev, hrec, hddlen, hv, hz, rfl⟩
      have hrmem : r ∈ deviceRows (recentRows now hb data) d :=
        List.mem_filter.mpr ⟨mem_recentRows hrd hrec, by simpa using hdev⟩
      apply List.mem_flatMap.mpr
      refine ⟨d, List.mem_dedup.mpr (List.mem_map.mpr ⟨r, hrd, hdev⟩), ?_⟩
      simp only
      rw [if_neg (by
        push_neg
        exact ⟨hddlen, List.ne_nil_of_mem hrmem⟩)]
      rw [if_neg hv]
      exact List.mem_filterMap.mpr ⟨r, hrmem, by rw [if_pos hz]⟩

/-- C1 (amended): with threshold multiplier `thrM ≥ 0`, a recent reading of a
device with ≥ 10 baseline points and non-zero std is flagged exactly when
`z > thrM`, i.e. `(x - mean)^2 > thrM^2 * var`; the flag's severity is `high`
exactly when `z` strictly exceeds `1.5 * thrM` and `medium` otherwise — so a
reading at exactly `mean + 3*std` (where `z = 3 = 1.5 * 2.0`) is flagged
`medium`, not `high`; and (for `thrM ≥ 1`, in particular the default 2.0) a
reading at `mean ± 1*std` is never flagged. -/
theorem statisticalOutlier_spec (thrM now hb : ℚ) (data : List Row) (d : String)
    (r : Row) (mn v : ℚ)
    (hr : r ∈ data) (hdev : r.device = d)
    (hmn : mn = qmean ((deviceRows data d).map (·.consumption)))
    (hv : v = sampleVar ((deviceRows data d).map (·.consumption)))
    (hlen : 10 ≤ data.length) (hdd : 10 ≤ (deviceRows data d).length)
    (hvne : v ≠ 0) (hrec : now - hb ≤ r.timestamp) (hthr : 0 ≤ thrM) :
    (mkStatOutlier thrM d mn v r ∈ detectStatistical thrM now hb data ↔
        thrM ^ 2 * v < (r.consumption - mn) ^ 2)
    ∧ ((mkStatOutlier thrM d mn v r).severity = Severity.high ↔
        (thrM * (3 / 2)) ^ 2 * v < (r.consumption - mn) ^ 2)
    ∧ ((mkStatOutlier thrM d mn v r).severity = Severity.medium ↔
        ¬ (thrM * (3 / 2)) ^ 2 * v < (r.consumption - mn) ^ 2)
    ∧ ((r.consumption - mn) ^ 2 = v → 1 ≤ thrM →
        mkStatOutlier thrM d mn v r ∉ detectStatistical thrM now hb data) := by
  subst hmn hv
  have hz15 : (0 : ℚ) ≤ thrM * (3 / 2) := by linarith
  have hmain : mkStatOutlier thrM d (qmean ((deviceRows data d).map (·.consumption)))
      (sampleVar ((deviceRows data d).map (·.consumption))) r ∈
        detectStatistical thrM now hb data ↔
      thrM ^ 2 * sampleVar ((deviceRows data d).map (·.consumption)) <
        (r.consumption - qmean ((deviceRows data d).map (·.consumption))) ^ 2 := by
    rw [mem_detectStatistical]
    constructor
    · rintro ⟨-, d', r', hr'd, hdev', -, -, -, hz', heq⟩
      have hdd' : d = d' := by
        have := congrArg Anomaly.device heq
        simpa [mkStatOutlier] using this
      subst hdd'
      have hcons : r'.consumption = r.consumption := by
        have := congrArg Anomaly.message heq
        simp only [mkStatOutlier, Message.unusualConsumption.injEq] at this
        exact this.1.symm
      rw [hcons] at hz'
      exact (zExceeds_of_nonneg hthr).mp hz'
    · intro h
      exact ⟨hlen, d, r, hr, hdev, hrec, hdd, hvne,
        (zExceeds_of_nonneg hthr).mpr h, rfl⟩
  refine ⟨hmain, ?_, ?_, ?_⟩
  · rw [mkStatOutlier]
    by_cases hc : zExceeds r.consumption
        (qmean ((deviceRows data d).map (·.consumption)))
        (sampleVar ((deviceRows data d).map (·.consumption))) (thrM * (3 / 2))
    · simpa [hc] using (zExceeds_of_nonneg hz15).mp hc
    · simp only [if_neg hc]
      constructor
      · intro h
        exact absurd h (by simp)
      · intro h
        exact absurd ((zExceeds_of_nonneg hz15).mpr h) hc
  · rw [mkStatOutlier]
    by_cases hc : zExceeds r.consumption
        (qmean ((deviceRows data d).map (·.consumption)))
        (sampleVar ((deviceRows data d).map (·.consumption))) (thrM * (3 / 2))
    · simp only [if_pos hc]
      constructor
      · intro h
        exact absurd h (by simp)
      · intro h
        exact absurd ((zExceeds_of_nonneg hz15).mp hc) h
    · simp only [if_neg hc]
      simp only [true_iff]
      exact fun h => hc ((zExceeds_of_nonneg hz15).mpr h)
  · intro hsq hthr1 hmem
    have hpos : 0 < sampleVar ((deviceRows data d).map (·.consumption)) :=
      lt_of_le_of_ne (sampleVar_nonneg _) (Ne.symm hvne)
    have := hmain.mp hmem
    rw [hsq] at this
    have h1 : (1 : ℚ) ≤ thrM ^ 2 := by nlinarith
    nlinarith [mul_le_mul_of_nonneg_right h1 hpos.le]

/-- The concrete data set used for C1: eleven readings of one device, nine at
9 kWh, one at 10 kWh (historical, 30 h old) and one recent reading at 19 kWh.
The full-window mean is 10, the sample variance 9 (std 3), and 19 = mean +
3*std exactly. -/
def cexStatData : List Row :=
  [⟨"d", 9, -30⟩, ⟨"d", 9, -30⟩, ⟨"d", 9, -30⟩, ⟨"d", 9, -30⟩, ⟨"d", 9, -30⟩,
   ⟨"d", 9, -30⟩, ⟨"d", 9, -30⟩, ⟨"d", 9, -30⟩, ⟨"d", 9, -30⟩, ⟨"d", 10, -30⟩,
   ⟨"d", 19, -1⟩]

/-- Counterexample to C1 as stated: with threshold 2.0, the recent reading at
exactly `mean + 3*std` (19 = 10 + 3*3) IS flagged, but with severity
`medium`, not `high`, because its z-score 3 equals — does not strictly
exceed — `1.5 * 2.0`. -/
theorem statisticalOutlier_mu3sigma_counterexample :
    qmean ((deviceRows cexStatData "d").map (·.consumption)) = 10
    ∧ sampleVar ((deviceRows cexStatData "d").map (·.consumption)) = 3 ^ 2
    ∧ (19 : ℚ) = 10 + 3 * 3
    ∧ mkStatOutlier 2 "d" 10 9 ⟨"d", 19, -1⟩ ∈ detectStatistical 2 0 24 cexStatData
    ∧ (mkStatOutlier 2 "d" 10 9 ⟨"d", 19, -1⟩).severity = Severity.medium := by
  have hmn : qmean ((deviceRows cexStatData "d").map (·.consumption)) = 10 := by
    simp [qmean, deviceRows, cexStatData]
    norm_num
  have hv : sampleVar ((deviceRows cexStatData "d").map (·.consumption)) = 9 := by
    simp [sampleVar, qmean, deviceRows, cexStatData]
    norm_num
  refine ⟨hmn, by rw [hv]; norm_num, by norm_num, ?_, ?_⟩
  · apply mem_detectStatistical.mpr
    refine ⟨by simp [cexStatData], "d", ⟨"d", 19, -1⟩, by simp [cexStatData], rfl,
      by norm_num, ?_, ?_, ?_, ?_⟩
    · simp [deviceRows, cexStatData]
    · rw [hv]; norm_num
    · rw [hmn, hv]
      exact Or.inr (by norm_num)
    · rw [hmn, hv]
  · rw [mkStatOutlier]
    rw [if_neg]
    unfold zExceeds
    push_neg
    norm_num

/-- Witness for C1's amended theorem on the concrete data set: the reading at
19 kWh (z = 3 > 2) is flagged, and its severity is `medium` since
`(2 * 1.5)^2 * 9 = 81` is not strictly below `(19 - 10)^2 = 81`. -/
theorem statisticalOutlier_spec_witness :
    mkStatOutlier 2 "d" 10 9 ⟨"d", 19, -1⟩ ∈ detectStatistical 2 0 24 cexStatData
    ∧ (mkStatOutlier 2 "d" 10 9 ⟨"d", 19, -1⟩).severity = Severity.medium := by
  have hmn : (10 : ℚ) = qmean ((deviceRows cexStatData "d").map (·.consumption)) := by
    simp [qmean, deviceRows, cexStatData]
    norm_num
  have hv : (9 : ℚ) = sampleVar ((deviceRows cexStatData "d").map (·.consumption)) := by
    simp [sampleVar, qmean, deviceRows, cexStatData]
    norm_num
  have h := statisticalOutlier_spec 2 0 24 cexStatData "d" ⟨"d", 19, -1⟩ 10 9
    (by simp [cexStatData]) rfl hmn hv (by simp [cexStatData])
    (by simp [deviceRows, cexStatData]) (by norm_num) (by norm_num) (by norm_num)
  exact ⟨h.1.mpr (by norm_num), h.2.2.1.mpr (by norm_num)⟩

/-- Maximum of a list of rationals (`.max()` of a groupby); junk value 0 on
the empty list, which the source never queries. -/
def listMax : List ℚ → ℚ
  | [] => 0
  | [x] => x
  | x :: y :: xs => max x (listMax (y :: xs))

/-- `data.groupby('device_name')['timestamp'].max()` for one device. -/
def lastSeen (data : List Row) (d : String) : ℚ :=
  listMax ((deviceRows data d).map (·.timestamp))

/-- The anomaly dict appended for an inactive device; `hours_inactive` is
`(now - last_seen)` in hours. -/
def mkInactive (now : ℚ) (d : String) (ls : ℚ) : Anomaly :=
  { device := d
    atype := .deviceInactive
    message := .inactiveMsg (now - ls)
    timestamp := now
    severity := .medium }

/-- First half of `_detect_device_anomalies`: one `device_inactive` anomaly
per device whose most recent reading is strictly older than 2 hours. -/
def inactiveAnomalies (now : ℚ) (data : List Row) : List Anomaly :=
  (uniqueDevices data).filterMap (fun d =>
    if lastSeen data d < now - 2 then some (mkInactive now d (lastSeen data d))
    else none)

/-- The anomaly dict appended for a significant consumption drop. -/
def mkDrop (d : String) (recentAvg histAvg ts : ℚ) : Anomaly :=
  { device := d
    atype := .consumptionDrop
    message := .dropMsg recentAvg histAvg
    timestamp := ts
    severity := .medium }

/-- Second half of `_detect_device_anomalies`: per device appearing in the
recent window with ≥ 5 data points overall, compare the recent mean against
the pre-window historical mean; the guard `hist ≠ []` mirrors the source's
`pd.isna(historical_avg)` check (the mean of an empty frame is NaN).  The
anomaly's timestamp is `recent_device_data['timestamp'].iloc[-1]`, the last
recent row of the device in the data's own order. -/
def dropAnomalies (now hoursBack : ℚ) (data : List Row) : List Anomaly :=
  (uniqueDevices (recentRows now hoursBack data)).filterMap (fun d =>
    let dd := deviceRows data d
    let rdd := deviceRows (recentRows now hoursBack data) d
    if dd.length < 5 ∨ rdd = [] then none
    else
      let hist := dd.filter (fun r => r.timestamp < now - hoursBack)
      if hist = [] then none
      else
        let ha := qmean (hist.map (·.consumption))
        let ra := qmean (rdd.map (·.consumption))
        if ra < ha * (3 / 10) ∧ (1 / 10 : ℚ) < ha then
          some (mkDrop d ra ha (((rdd.map (·.timestamp))).getLastD 0))
        else none)

/-- `_detect_device_anomalies`: inactive devices followed by consumption
drops. -/
def detectDeviceAnomalies (now hoursBack : ℚ) (data : List Row) : List Anomaly :=
  inactiveAnomalies now data ++ dropAnomalies now hoursBack data

/-- `timestamp.dt.hour` for a timestamp in rational hours. -/
def hourOfDay (ts : ℚ) : ℤ := ⌊ts⌋ % 24

/-- The hours of day present in a frame (a groupby-by-hour index). -/
def hoursIn (l : List Row) : List ℤ :=
  (l.map (fun r => hourOfDay r.timestamp)).dedup

/-- Mean consumption of the rows falling in hour-of-day `h`
(`groupby(timestamp.dt.hour)['consumption'].mean()`). -/
def hourlyMean (l : List Row) (h : ℤ) : ℚ :=
  qmean ((l.filter (fun r => hourOfDay r.timestamp = h)).map (·.consumption))

/-- `datetime.now().replace(hour=hour, minute=0, second=0, microsecond=0)`. -/
def patternTimestamp (now : ℚ) (h : ℤ) : ℚ := 24 * (⌊now / 24⌋ : ℚ) + h

/-- The anomaly dict appended by `_detect_pattern_anomalies` for hour `h`. -/
def mkPattern (now : ℚ) (h : ℤ) (rv hv : ℚ) : Anomaly :=
  { device := "system"
    atype := .patternDeviation
    message := .patternMsg h rv hv
    timestamp := patternTimestamp now h
    severity := if 3 < rv / hv ∨ rv / hv < 3 / 10 then .high else .medium }

/-- `_detect_pattern_anomalies`: hour-of-day mean ratios between the recent
window and the prior history; an hour present in both is flagged when the
ratio leaves [0.5, 2.0]. -/
def detectPattern (now hoursBack : ℚ) (data : List Row) : List Anomaly :=
  if data.length < 24 then []
  else
    let recent := recentRows now hoursBack data
    let hist := data.filter (fun r => r.timestamp < now - hoursBack)
    if recent = [] ∨ hist = [] then []
    else
      (hoursIn recent).filterMap (fun h =>
        if h ∈ hoursIn hist then
          let rv := hourlyMean recent h
          let hv := hourlyMean hist h
          if 0 < hv then
            if 2 < rv / hv ∨ rv / hv < 1 / 2 then some (mkPattern now h rv hv)
            else none
          else none
        else none)

/-- `detect_anomalies`: pull a 7× wider baseline window, return `[]` when it
is empty, otherwise concatenate the four detectors' results.  (The loop that
also inserts each anomaly into the `anomalies` table is store output, not part
of the returned value.) -/
def detectAnomalies (thrM thr now hoursBack : ℚ) (store : List Row) : List Anomaly :=
  let data := recentRows now (hoursBack * 7) store
  if data = [] then []
  else
    detectStatistical thrM now hoursBack data
      ++ detectHighUsage thr now hoursBack data
      ++ detectDeviceAnomalies now hoursBack data
      ++ detectPattern now hoursBack data

theorem countP_imp_single {c : String → Bool} {d : String} {l : List String}
    (hnd : l.Nodup) :
    (l.countP (fun x => c x && x == d)) = if d ∈ l ∧ c d then 1 else 0 := by
  induction l with
  | nil => simp
  | cons x xs ih =>
    rcases List.nodup_cons.mp hnd with ⟨hx, hnd'⟩
    rw [List.countP_cons, ih hnd']
    by_cases hxd : x = d
    · rw [hxd] at hx ⊢
      by_cases hc : c d
      · simp [hx, hc]
      · simp [hx, hc]
    · have hne : (x == d) = false := beq_eq_false_iff_ne.mpr hxd
      simp only [hne, Bool.and_false, cond_false, List.mem_cons, Nat.add_zero]
      by_cases hmem : d ∈ xs
      · simp [hmem]
      · have hdx : ¬ d = x := fun h => hxd h.symm
        simp [hmem, hdx]

theorem dropAnomalies_atype {now hb : ℚ} {data : List Row} {a : Anomaly}
    (h : a ∈ dropAnomalies now hb data) : a.atype = AnomalyType.consumptionDrop := by
  rcases List.mem_filterMap.mp h with ⟨d, -, hf⟩
  simp only [dropAnomalies] at hf
  split at hf
  · exact absurd hf Option.noConfusion
  · split at hf
    · exact absurd hf Option.noConfusion
    · split at hf
      · rw [Option.some.injEq] at hf
        rw [← hf]
        rfl
      · exact absurd hf Option.noConfusion

/-- C7: among the device anomalies, each device in the data whose most recent
reading overall is strictly older than 2 hours yields exactly one
`device_inactive` record, of severity `medium`, whose message carries the
hours since the device was last seen; a device seen within the last 2 hours
yields none. -/
theorem deviceInactive_spec (now hoursBack : ℚ) (data : List Row) (d : String)
    (hd : d ∈ uniqueDevices data) :
    ((detectDeviceAnomalies now hoursBack data).countP
        (fun a => a.atype == AnomalyType.deviceInactive && a.device == d) =
      if lastSeen data d < now - 2 then 1 else 0)
    ∧ (lastSeen data d < now - 2 →
        mkInactive now d (lastSeen data d) ∈ detectDeviceAnomalies now hoursBack data)
    ∧ (mkInactive now d (lastSeen data d)).severity = Severity.medium
    ∧ (mkInactive now d (lastSeen data d)).message
        = Message.inactiveMsg (now - lastSeen data d) := by
  refine ⟨?_, ?_, rfl, rfl⟩
  · rw [detectDeviceAnomalies, List.countP_append]
    have hdrop : (dropAnomalies now hoursBack data).countP
        (fun a => a.atype == AnomalyType.deviceInactive && a.device == d) = 0 := by
      rw [List.countP_eq_zero]
      intro a ha
      have := dropAnomalies_atype ha
      simp [this]
    rw [hdrop, Nat.add_zero, inactiveAnomalies, List.countP_filterMap]
    have hpred : (fun x => (Option.map
          (fun a => a.atype == AnomalyType.deviceInactive && a.device == d)
          (if lastSeen data x < now - 2 then some (mkInactive now x (lastSeen data x))
           else none)).getD false)
        = fun x => decide (lastSeen data x < now - 2) && x == d := by
      funext x
      by_cases hc : lastSeen data x < now - 2
      · simp [hc, mkInactive]
      · simp [hc]
    rw [hpred]
    have hcount := countP_imp_single
      (c := fun x => decide (lastSeen data x < now - 2)) (d := d)
      (l := uniqueDevices data) (List.nodup_dedup _)
    rw [hcount]
    by_cases hc : lastSeen data d < now - 2
    · simp [hc, hd]
    · simp [hc]
  · intro hc
    exact List.mem_append_left _
      (List.mem_filterMap.mpr ⟨d, hd, by rw [if_pos hc]⟩)

/-- Two devices, one last seen 3 hours ago, the other 1 hour ago. -/
def witInactiveData : List Row := [⟨"a", 1, -3⟩, ⟨"b", 1, -1⟩]

/-- Witness for C7: with `now = 0`, device `a` (last seen 3 h ago) is flagged
exactly once and its record is present; device `b` (last seen 1 h ago) is not
flagged. -/
theorem deviceInactive_spec_witness :
    ((detectDeviceAnomalies 0 24 witInactiveData).countP
        (fun a => a.atype == AnomalyType.deviceInactive && a.device == "a") = 1)
    ∧ ((detectDeviceAnomalies 0 24 witInactiveData).countP
        (fun a => a.atype == AnomalyType.deviceInactive && a.device == "b") = 0)
    ∧ mkInactive 0 "a" (-3) ∈ detectDeviceAnomalies 0 24 witInactiveData := by
  have hlsa : lastSeen witInactiveData "a" = -3 := by
    simp [lastSeen, deviceRows, witInactiveData, listMax]
  have hlsb : lastSeen witInactiveData "b" = -1 := by
    simp [lastSeen, deviceRows, witInactiveData, listMax]
  have ha := deviceInactive_spec 0 24 witInactiveData "a"
    (by simp [uniqueDevices, witInactiveData])
  have hb := deviceInactive_spec 0 24 witInactiveData "b"
    (by simp [uniqueDevices, witInactiveData])
  rw [hlsa] at ha
  rw [hlsb] at hb
  refine ⟨?_, ?_, ha.2.1 (by norm_num)⟩
  · rw [ha.1, if_pos (by norm_num)]
  · rw [hb.1, if_neg (by norm_num)]


theorem severity_mem_detectStatistical {thrM now hb : ℚ} {data : List Row} {a : Anomaly}
    (h : a ∈ detectStatistical thrM now hb data) :
    a.severity = Severity.medium ∨ a.severity = Severity.high := by
  rcases (mem_detectStatistical.mp h).2 with ⟨d, r, -, -, -, -, -, -, rfl⟩
  rw [mkStatOutlier]
  split
  · right; rfl
  · left; rfl

theorem severity_mem_detectHighUsage {thr now hb : ℚ} {data : List Row} {a : Anomaly}
    (h : a ∈ detectHighUsage thr now hb data) :
    a.severity = Severity.medium ∨ a.severity = Severity.high := by
  rcases List.mem_filterMap.mp h with ⟨r, -, hf⟩
  split at hf
  · rw [Option.some.injEq] at hf
    rw [← hf, mkHighUsage]
    split
    · right; rfl
    · left; rfl
  · exact absurd hf Option.noConfusion

theorem severity_mem_detectDeviceAnomalies {now hb : ℚ} {data : List Row} {a : Anomaly}
    (h : a ∈ detectDeviceAnomalies now hb data) :
    a.severity = Severity.medium ∨ a.severity = Severity.high := by
  rcases List.mem_append.mp h with h' | h'
  · rcases List.mem_filterMap.mp h' with ⟨d, -, hf⟩
    split at hf
    · rw [Option.some.injEq] at hf
      rw [← hf]
      left; rfl
    · exact absurd hf Option.noConfusion
  · rcases List.mem_filterMap.mp h' with ⟨d, -, hf⟩
    simp only [dropAnomalies] at hf
    split at hf
    · exact absurd hf Option.noConfusion
    · split at hf
      · exact absurd hf Option.noConfusion
      · split at hf
        · rw [Option.some.injEq] at hf
          rw [← hf]
          left; rfl
        · exact absurd hf Option.noConfusion

theorem severity_mem_detectPattern {now hb : ℚ} {data : List Row} {a : Anomaly}
    (h : a ∈ detectPattern now hb data) :
    a.severity = Severity.medium ∨ a.severity = Severity.high := by
  rw [detectPattern] at h
  split at h
  · exact absurd h (List.not_mem_nil a)
  · simp only at h
    split at h
    · exact absurd h (List.not_mem_nil a)
    · rcases List.mem_filterMap.mp h with ⟨hr, -, hf⟩
      split at hf
      · split at hf
        · split at hf
          · rw [Option.some.injEq] at hf
            rw [← hf, mkPattern]
            split
            · right; rfl
            · left; rfl
          · exact absurd hf Option.noConfusion
        · exact absurd hf Option.noConfusion
      · exact absurd hf Option.noConfusion

/-- C10: every anomaly returned by `detect_anomalies` has severity `medium`
or `high`; although the severity type admits `low`, no detector produces it. -/
theorem detectAnomalies_severity (thrM thr now hoursBack : ℚ) (store : List Row)
    (a : Anomaly) (h : a ∈ detectAnomalies thrM thr now hoursBack store) :
    a.severity = Severity.medium ∨ a.severity = Severity.high := by
  rw [detectAnomalies] at h
  split at h
  · exact absurd h (List.not_mem_nil a)
  · rcases List.mem_append.mp h with h' | h'
    rcases List.mem_append.mp h' with h'' | h''
    rcases List.mem_append.mp h'' with h3 | h3
    · exact severity_mem_detectStatistical h3
    · exact severity_mem_detectHighUsage h3
    · exact severity_mem_detectDeviceAnomalies h''
    · exact severity_mem_detectPattern h'

/-- Witness for C10: on a store with a single recent 6 kWh reading the engine
emits the high-usage record, whose severity the theorem pins to medium or
high (it is in fact medium). -/
theorem detectAnomalies_severity_witness :
    (mkHighUsage 5 ⟨"d", 6, -1⟩).severity = Severity.medium
    ∨ (mkHighUsage 5 ⟨"d", 6, -1⟩).severity = Severity.high := by
  apply detectAnomalies_severity 2 5 0 24 [⟨"d", 6, -1⟩]
  have hdata : recentRows 0 (24 * 7) [(⟨"d", 6, -1⟩ : Row)] = [⟨"d", 6, -1⟩] := by
    simp [recentRows]
    norm_num
  rw [detectAnomalies]
  simp only [hdata]
  rw [if_neg (by simp)]
  apply List.mem_append_left
  apply List.mem_append_left
  apply List.mem_append_right
  rw [detectHighUsage]
  apply List.mem_filterMap.mpr
  refine ⟨⟨"d", 6, -1⟩, ?_, by norm_num⟩
  simp [recentRows]

/-! ## The data-processor layer (`data_processor.py`) -/

/-- `date(timestamp)`: the calendar-day index of a timestamp in hours. -/
def dayOf (ts : ℚ) : ℤ := ⌊ts / 24⌋

/-- `get_energy_data_range(start, end)`:
`WHERE date(timestamp) BETWEEN ? AND ?` (both bounds inclusive). -/
def dataRange (store : List Row) (startDay endDay : ℤ) : List Row :=
  store.filter (fun r => startDay ≤ dayOf r.timestamp ∧ dayOf r.timestamp ≤ endDay)

/-- The distinct days present in a frame, ascending — the (sorted) index of
`data.groupby(data['timestamp'].dt.date)`. -/
def daysPresent (data : List Row) : List ℤ :=
  ((data.map (fun r => dayOf r.timestamp)).dedup).insertionSort (· ≤ ·)

/-- `data.groupby(data['timestamp'].dt.date)['consumption'].sum()`: the list
of daily totals, in ascending day order. -/
def dailyTotals (data : List Row) : List ℚ :=
  (daysPresent data).map (fun day =>
    ((data.filter (fun r => dayOf r.timestamp = day)).map (·.consumption)).sum)

/-- The fields of the `get_consumption_statistics` dict that are read by a
downstream routine.  `varDaily` is the square of the dict's `std_deviation`
entry (the sample std of the daily totals, an irrational square root); every
consumer either squares it back or passes it through a parameter.  The
`min/max/median_daily` entries are read by nothing and are omitted.  On the
empty-range branch the source omits `days_with_data`/`average_hourly` from
the dict; every consumer reaches them only behind a `total == 0` guard or a
`.get(..., 0)` default, so the zero here is exact. -/
structure Stats where
  totalConsumption : ℚ
  averageDaily : ℚ
  varDaily : ℚ
  totalCost : ℚ
  daysWithData : ℕ
  averageHourly : ℚ
deriving Repr, DecidableEq

/-- `get_consumption_statistics(days_back)` over the range
`[today - days_back, today]`. -/
def consumptionStatistics (store : List Row) (today daysBack : ℤ) : Stats :=
  let data := dataRange store (today - daysBack) today
  if data = [] then
    { totalConsumption := 0, averageDaily := 0, varDaily := 0, totalCost := 0
      daysWithData := 0, averageHourly := 0 }
  else
    let dt := dailyTotals data
    let total := (data.map (·.consumption)).sum
    { totalConsumption := total
      averageDaily := qmean dt
      varDaily := sampleVar dt
      totalCost := total * ENERGY_COST_PER_KWH
      daysWithData := dt.length
      averageHourly := qmean (data.map (·.consumption)) }

/-- The `usage_level` factor of `calculate_energy_efficiency_score`: at or
below the 25 kWh/day reference it scores `100 - avg/25*50`; above it,
`max(0, 50 - (avg-25)/25*50)`. -/
def usageLevel (avg : ℚ) : ℚ :=
  if avg ≤ 25 then 100 - avg / 25 * 50
  else max 0 (50 - (avg - 25) / 25 * 50)

/-- C5 (amended): above the 25 kWh/day reference the `usage_level` factor is
weakly decreasing, and strictly decreasing exactly while the zero floor is
not yet reached: for `25 < a1 < a2` it strictly decreases when `a1 < 50`,
while for `50 ≤ a1` both values are floored at 0. -/
theorem usageLevel_antitone (a1 a2 : ℚ) (h25 : 25 < a1) (h12 : a1 < a2) :
    (usageLevel a2 ≤ usageLevel a1)
    ∧ (a1 < 50 → usageLevel a2 < usageLevel a1)
    ∧ (50 ≤ a1 → usageLevel a1 = 0 ∧ usageLevel a2 = 0) := by
  have e1 : usageLevel a1 = max 0 (100 - 2 * a1) := by
    rw [usageLevel, if_neg (by linarith)]
    ring_nf
  have e2 : usageLevel a2 = max 0 (100 - 2 * a2) := by
    rw [usageLevel, if_neg (by linarith)]
    ring_nf
  refine ⟨?_, ?_, ?_⟩
  · rw [e1, e2]
    exact max_le_max le_rfl (by linarith)
  · intro h50
    rw [e1, e2]
    have h1 : max 0 (100 - 2 * a1) = 100 - 2 * a1 := max_eq_right (by linarith)
    rw [h1]
    rcases le_or_lt (100 - 2 * a2) 0 with h | h
    · rw [max_eq_left h]
      linarith
    · rw [max_eq_right h.le]
      linarith
  · intro h50
    rw [e1, e2, max_eq_left (by linarith), max_eq_left (by linarith)]
    exact ⟨rfl, rfl⟩

/-- Witness for C5's amended theorem at `a1 = 30 < a2 = 40`, where the floor
is not binding: `usageLevel 30 = 40` strictly above `usageLevel 40 = 20`. -/
theorem usageLevel_antitone_witness :
    usageLevel 40 < usageLevel 30 ∧ usageLevel 30 = 40 ∧ usageLevel 40 = 20 := by
  have h := usageLevel_antitone 30 40 (by norm_num) (by norm_num)
  refine ⟨h.2.1 (by norm_num), ?_, ?_⟩
  · rw [usageLevel, if_neg (by norm_num)]
    norm_num
  · rw [usageLevel, if_neg (by norm_num)]
    norm_num

/-- Counterexample to C5 as stated: the factor is *not* strictly decreasing
on all of `(25, ∞)`: at averages 50 and 75 (both above the reference, with
50 < 75) the factor is 0 in both cases, because the zero floor binds. -/
theorem usageLevel_not_strict_counterexample :
    (25 : ℚ) < 50 ∧ (50 : ℚ) < 75
    ∧ usageLevel 50 = 0 ∧ usageLevel 75 = 0
    ∧ ¬ usageLevel 75 < usageLevel 50 := by
  have h50 : usageLevel 50 = 0 := by
    rw [usageLevel, if_neg (by norm_num)]
    norm_num
  have h75 : usageLevel 75 = 0 := by
    rw [usageLevel, if_neg (by norm_num)]
    rw [max_eq_left (by norm_num)]
  refine ⟨by norm_num, by norm_num, h50, h75, ?_⟩
  rw [h50, h75]
  exact lt_irrefl 0

theorem roundHE_err (q : ℚ) : |(roundHE q : ℚ) - q| ≤ 1 / 2 := by
  have h0 : (⌊q⌋ : ℚ) ≤ q := Int.floor_le q
  have h1 : q < ⌊q⌋ + 1 := Int.lt_floor_add_one q
  rw [roundHE]
  split
  · rw [abs_le]
    constructor <;> linarith
  · split
    · rw [abs_le]
      constructor <;> push_cast <;> linarith
    · split
      all_goals
        rw [abs_le]
        constructor <;> push_cast <;> linarith

theorem roundDec_err (d : ℕ) (q : ℚ) :
    |roundDec d q - q| ≤ 1 / (2 * 10 ^ d) := by
  have hpow : (0 : ℚ) < 10 ^ d := by positivity
  have h := roundHE_err (q * 10 ^ d)
  rw [roundDec]
  have : (roundHE (q * 10 ^ d) : ℚ) / 10 ^ d - q
      = ((roundHE (q * 10 ^ d) : ℚ) - q * 10 ^ d) / 10 ^ d := by
    field_simp
    ring
  rw [this, abs_div, abs_of_pos hpow, div_le_iff₀ hpow]
  calc |(roundHE (q * 10 ^ d) : ℚ) - q * 10 ^ d| ≤ 1 / 2 := h
    _ = 1 / (2 * 10 ^ d) * 10 ^ d := by
        field_simp

theorem abs_sum_map_le {α : Type} (l : List α) (u : α → ℚ) (c : ℚ)
    (h : ∀ a ∈ l, |u a| ≤ c) : |(l.map u).sum| ≤ l.length * c := by
  induction l with
  | nil => simp
  | cons x xs ih =>
    simp only [List.map_cons, List.sum_cons, List.length_cons]
    have h1 : |u x + (xs.map u).sum| ≤ |u x| + |(xs.map u).sum| := abs_add _ _
    have h2 : |u x| ≤ c := h x (List.mem_cons_self x xs)
    have h3 : |(xs.map u).sum| ≤ xs.length * c :=
      ih fun a ha => h a (List.mem_cons_of_mem x ha)
    push_cast
    linarith

/-- One row of the frame returned by `get_device_consumption_breakdown`.
`varConsumption` is the square of the frame's (pre-rounding) `std_deviation`
column — an irrational square root read by nothing downstream; all other
columns are modelled exactly, including their roundings. -/
structure DeviceStat where
  name : String
  totalConsumption : ℚ
  avgConsumption : ℚ
  readingCount : ℕ
  varConsumption : ℚ
  percentage : ℚ
  totalCost : ℚ
deriving Repr, DecidableEq

/-- `device_stats['total_consumption'].sum()`: the grand total of the
per-device sums, each already rounded to 3 decimals. -/
def breakdownTotal (data : List Row) : ℚ :=
  ((uniqueDevices data).map (fun d =>
    roundDec 3 ((deviceRows data d).map (·.consumption)).sum)).sum

/-- One device's row of the breakdown frame. -/
def mkDeviceStat (data : List Row) (total : ℚ) (d : String) : DeviceStat :=
  { name := d
    totalConsumption := roundDec 3 ((deviceRows data d).map (·.consumption)).sum
    avgConsumption := roundDec 3 (qmean ((deviceRows data d).map (·.consumption)))
    readingCount := (deviceRows data d).length
    varConsumption := sampleVar ((deviceRows data d).map (·.consumption))
    percentage := roundDec 1
      (roundDec 3 ((deviceRows data d).map (·.consumption)).sum / total * 100)
    totalCost := roundDec 2
      (roundDec 3 ((deviceRows data d).map (·.consumption)).sum
        * ENERGY_COST_PER_KWH) }

/-- `get_device_consumption_breakdown(days_back)`: per-device sums/means
rounded to 3 decimals, percentage of the (rounded) grand total rounded to 1
decimal, cost rounded to 2 decimals, sorted by total consumption
descending. -/
def deviceBreakdown (store : List Row) (today daysBack : ℤ) : List DeviceStat :=
  let data := dataRange store (today - daysBack) today
  if data = [] then []
  else
    ((uniqueDevices data).map
      (mkDeviceStat data (breakdownTotal data))).insertionSort
        (fun a b => b.totalConsumption ≤ a.totalConsumption)

theorem breakdown_rows_percentage_sum (data : List Row)
    (hpos : 0 < breakdownTotal data) :
    |(((uniqueDevices data).map (mkDeviceStat data (breakdownTotal data))).map
        (·.percentage)).sum - 100|
      ≤ ((uniqueDevices data).length : ℚ) * (1 / 20) := by
  have htne : breakdownTotal data ≠ 0 := ne_of_gt hpos
  rw [List.map_map]
  have hexact : ((uniqueDevices data).map (fun d =>
      roundDec 3 ((deviceRows data d).map (·.consumption)).sum
        / breakdownTotal data * 100)).sum = 100 := by
    have hfun : (fun d => roundDec 3 ((deviceRows data d).map (·.consumption)).sum
          / breakdownTotal data * 100)
        = fun d => roundDec 3 ((deviceRows data d).map (·.consumption)).sum
          * (100 / breakdownTotal data) := by
      funext d
      field_simp
    rw [hfun, List.sum_map_mul_right, ← breakdownTotal]
    field_simp
  have hfun2 : ((fun s => s.percentage) ∘ mkDeviceStat data (breakdownTotal data))
      = fun d =>
          (roundDec 1 (roundDec 3 ((deviceRows data d).map (·.consumption)).sum
              / breakdownTotal data * 100)
            - roundDec 3 ((deviceRows data d).map (·.consumption)).sum
              / breakdownTotal data * 100)
          + roundDec 3 ((deviceRows data d).map (·.consumption)).sum
              / breakdownTotal data * 100 := by
    funext d
    simp only [Function.comp, mkDeviceStat]
    ring
  rw [hfun2, List.sum_map_add, hexact, add_sub_cancel_right]
  exact abs_sum_map_le (uniqueDevices data) _ (1 / 20) (fun d _ => by
    have h := roundDec_err 1
      (roundDec 3 ((deviceRows data d).map (·.consumption)).sum
        / breakdownTotal data * 100)
    norm_num at h ⊢
    exact h)

/-- C8 (amended): for a non-empty range whose (rounded) total consumption is
positive, the per-device percentages sum to 100 up to at most 0.05 per
device (each percentage is rounded once to 1 decimal place); the claim's
fixed 0.1 tolerance is guaranteed only for up to two devices and can be
exceeded from four devices on. -/
theorem deviceBreakdown_percentage_sum (store : List Row) (today daysBack : ℤ)
    (hne : dataRange store (today - daysBack) today ≠ [])
    (hpos : 0 < breakdownTotal (dataRange store (today - daysBack) today)) :
    |((deviceBreakdown store today daysBack).map (·.percentage)).sum - 100|
      ≤ ((deviceBreakdown store today daysBack).length : ℚ) * (1 / 20) := by
  rw [deviceBreakdown]
  rw [if_neg hne]
  have hperm := List.perm_insertionSort
    (fun a b : DeviceStat => b.totalConsumption ≤ a.totalConsumption)
    ((uniqueDevices (dataRange store (today - daysBack) today)).map
      (mkDeviceStat (dataRange store (today - daysBack) today)
        (breakdownTotal (dataRange store (today - daysBack) today))))
  rw [(hperm.map (·.percentage)).sum_eq, hperm.length_eq, List.length_map]
  exact breakdown_rows_percentage_sum _ hpos

/-- Five devices with one nonnegative reading each, totalling 10000 kWh; four
of the exact percentages are 24.96 and one is 0.16, all rounding away from
their exact values in the same direction. -/
def cexBreakdownStore : List Row :=
  [⟨"a", 2496, 1⟩, ⟨"b", 2496, 2⟩, ⟨"c", 2496, 3⟩, ⟨"d", 2496, 4⟩, ⟨"e", 16, 5⟩]

theorem cexBreakdown_dataRange :
    dataRange cexBreakdownStore ((0 : ℤ) - 30) 0 = cexBreakdownStore := by
  simp [dataRange, cexBreakdownStore, dayOf]
  norm_num

theorem cexBreakdown_total : breakdownTotal cexBreakdownStore = 10000 := by
  rw [breakdownTotal, uniqueDevices, List.dedup_eq_self.mpr (by decide)]
  simp [deviceRows, cexBreakdownStore]
  norm_num [roundDec, roundHE]

theorem cexBreakdown_sum :
    ((deviceBreakdown cexBreakdownStore 0 30).map (·.percentage)).sum = 100.2 := by
  have hdevs : uniqueDevices cexBreakdownStore = ["a", "b", "c", "d", "e"] := by
    rw [uniqueDevices, List.dedup_eq_self.mpr (by decide)]
    rfl
  rw [deviceBreakdown]
  simp only [cexBreakdown_dataRange]
  rw [if_neg (by simp [cexBreakdownStore])]
  have hperm := List.perm_insertionSort
    (fun a b : DeviceStat => b.totalConsumption ≤ a.totalConsumption)
    ((uniqueDevices cexBreakdownStore).map
      (mkDeviceStat cexBreakdownStore (breakdownTotal cexBreakdownStore)))
  rw [(hperm.map (·.percentage)).sum_eq, hdevs, cexBreakdown_total]
  simp [mkDeviceStat, deviceRows, cexBreakdownStore]
  norm_num [roundDec, roundHE]

/-- Counterexample to C8 as stated: a non-empty range of five nonnegative
readings whose device percentages (25.0, 25.0, 25.0, 25.0, 0.2) sum to
100.2, missing 100 by 0.2 > 0.1. -/
theorem deviceBreakdown_tolerance_counterexample :
    dataRange cexBreakdownStore ((0 : ℤ) - 30) 0 ≠ []
    ∧ cexBreakdownStore.all (fun r => 0 ≤ r.consumption) = true
    ∧ ((deviceBreakdown cexBreakdownStore 0 30).map (·.percentage)).sum = 100.2
    ∧ ¬ |((deviceBreakdown cexBreakdownStore 0 30).map (·.percentage)).sum - 100|
        ≤ 1 / 10 := by
  refine ⟨?_, by decide, cexBreakdown_sum, ?_⟩
  · rw [cexBreakdown_dataRange]
    simp [cexBreakdownStore]
  · rw [cexBreakdown_sum]
    norm_num
    rw [abs_of_nonneg (by norm_num : (0 : ℚ) ≤ 1 / 5)]
    norm_num

/-- Witness for C8's amended theorem on the five-device store: the bound
`5 * 0.05 = 0.25` does hold there (the sum misses 100 by 0.2). -/
theorem deviceBreakdown_percentage_sum_witness :
    |((deviceBreakdown cexBreakdownStore 0 30).map (·.percentage)).sum - 100|
      ≤ ((deviceBreakdown cexBreakdownStore 0 30).length : ℚ) * (1 / 20) := by
  apply deviceBreakdown_percentage_sum
  · rw [cexBreakdown_dataRange]
    simp [cexBreakdownStore]
  · rw [cexBreakdown_dataRange, cexBreakdown_total]
    norm_num

/-- `get_hourly_consumption_pattern(days_back)`: `(hour, avg_consumption)`
rows with the mean rounded to 3 decimals, hour ascending (the sorted groupby
index), then `reset_index()`.  The frame's `std_deviation` column (an
irrational square root) and `data_points` column are read by no downstream
routine and are omitted. -/
def hourlyPattern (store : List Row) (today daysBack : ℤ) : List (ℤ × ℚ) :=
  let data := dataRange store (today - daysBack) today
  if data = [] then []
  else
    ((hoursIn data).insertionSort (· ≤ ·)).map
      (fun h => (h, roundDec 3 (hourlyMean data h)))

/-- `frame[(frame.index >= lo) & (frame.index <= hi)]['avg_consumption']`.
Because `get_hourly_consumption_pattern` returns a `reset_index()` frame,
`.index` is the 0-based row *position*, not the hour — so the consumers
select rows by position.  (When all 24 hours are present, position and hour
coincide.) -/
def posSlice (lo hi : ℕ) (l : List (ℤ × ℚ)) : List ℚ :=
  (l.enum.filter (fun p => lo ≤ p.1 ∧ p.1 ≤ hi)).map (fun p => p.2.2)

/-- `frame[(frame.index >= lo) | (frame.index <= hi)]['avg_consumption']`,
positional like `posSlice`. -/
def posSliceOuter (lo hi : ℕ) (l : List (ℤ × ℚ)) : List ℚ :=
  (l.enum.filter (fun p => lo ≤ p.1 ∨ p.1 ≤ hi)).map (fun p => p.2.2)

/-- A savings-opportunity dict, carrying the numbers its `description` and
`potential_savings` interpolate. -/
inductive SavingsOpp
  | highCostDevice (name : String) (cost percentage : ℚ)
  | peakHourUsage (peakCost : ℚ)
  | efficiencyImprovement (excessDaily : ℚ)
deriving Repr, DecidableEq

/-- The `potential_savings` value of an opportunity: 10% of a high-cost
device's cost, 20% of the peak-hour cost, and the full excess cost
(`excess * rate * 30.44`) for above-reference usage. -/
def savingsPotential : SavingsOpp → ℚ
  | .highCostDevice _ cost _ => cost * (1 / 10)
  | .peakHourUsage pc => pc * (2 / 10)
  | .efficiencyImprovement excess => excess * ENERGY_COST_PER_KWH * (3044 / 100)

/-- The dict returned by `get_cost_analysis`.  On the no-data branch the
source dict omits `total_potential_savings` and `cost_per_kwh`; nothing
downstream reads them, and we fill 0 and the rate. -/
structure CostReport where
  totalCost : ℚ
  dailyAverageCost : ℚ
  projectedMonthlyCost : ℚ
  projectedAnnualCost : ℚ
  costBreakdown : List (String × ℚ × ℚ)
  savingsOpportunities : List SavingsOpp
  totalPotentialSavings : ℚ
  costPerKwh : ℚ
deriving Repr, DecidableEq

/-- `get_cost_analysis(days_back)`. -/
def getCostAnalysis (store : List Row) (today daysBack : ℤ) : CostReport :=
  let stats := consumptionStatistics store today daysBack
  if stats.totalConsumption = 0 then
    { totalCost := 0, dailyAverageCost := 0, projectedMonthlyCost := 0
      projectedAnnualCost := 0, costBreakdown := [], savingsOpportunities := []
      totalPotentialSavings := 0, costPerKwh := ENERGY_COST_PER_KWH }
  else
    let totalCost := stats.totalCost
    let dac := if 0 < stats.daysWithData then totalCost / stats.daysWithData else 0
    let monthly := dac * (3044 / 100)
    let annual := dac * 365
    let bd := deviceBreakdown store today daysBack
    let highCost := (bd.filter (fun row => monthly * (2 / 10) < row.totalCost)).map
      (fun row => SavingsOpp.highCostDevice row.name row.totalCost row.percentage)
    let hp := hourlyPattern store today daysBack
    let peakOpps :=
      if hp = [] then []
      else
        let pk := posSlice 17 21 hp
        if pk = [] then []
        else
          let peakCost := pk.sum * ENERGY_COST_PER_KWH * stats.daysWithData
          if totalCost * (3 / 10) < peakCost then [SavingsOpp.peakHourUsage peakCost]
          else []
    let effOpps :=
      if 25 < stats.averageDaily then
        [SavingsOpp.efficiencyImprovement (stats.averageDaily - 25)]
      else []
    let opps := highCost ++ peakOpps ++ effOpps
    { totalCost := roundDec 2 totalCost
      dailyAverageCost := roundDec 2 dac
      projectedMonthlyCost := roundDec 2 monthly
      projectedAnnualCost := roundDec 2 annual
      costBreakdown := bd.map (fun row => (row.name, row.totalCost, row.percentage))
      savingsOpportunities := opps
      totalPotentialSavings := roundDec 2 ((opps.map savingsPotential).sum)
      costPerKwh := ENERGY_COST_PER_KWH }

/-- C9 (amended): for a non-empty range, the *unrounded* daily average cost
times `days_with_data` recovers `total_cost` exactly; the returned
`daily_average_cost` field, however, is rounded to 2 decimals, so the
round-trip only holds within half a cent per day (`days * 0.005`), not
within 1e-6. -/
theorem costAnalysis_roundtrip (store : List Row) (today daysBack : ℤ)
    (h0 : (consumptionStatistics store today daysBack).totalConsumption ≠ 0)
    (hd : 0 < (consumptionStatistics store today daysBack).daysWithData) :
    ((consumptionStatistics store today daysBack).totalCost
        / ((consumptionStatistics store today daysBack).daysWithData : ℚ))
      * ((consumptionStatistics store today daysBack).daysWithData : ℚ)
      = (consumptionStatistics store today daysBack).totalCost
    ∧ (getCostAnalysis store today daysBack).dailyAverageCost
        = roundDec 2 ((consumptionStatistics store today daysBack).totalCost
            / ((consumptionStatistics store today daysBack).daysWithData : ℚ))
    ∧ |(getCostAnalysis store today daysBack).dailyAverageCost
          * ((consumptionStatistics store today daysBack).daysWithData : ℚ)
        - (consumptionStatistics store today daysBack).totalCost|
      ≤ ((consumptionStatistics store today daysBack).daysWithData : ℚ) * (1 / 200) := by
  have hdq : (0 : ℚ) < ((consumptionStatistics store today daysBack).daysWithData : ℚ) := by
    exact_mod_cast hd
  have hfield : (getCostAnalysis store today daysBack).dailyAverageCost
      = roundDec 2 ((consumptionStatistics store today daysBack).totalCost
          / ((consumptionStatistics store today daysBack).daysWithData : ℚ)) := by
    rw [getCostAnalysis]
    simp only [if_neg h0, if_pos hd]
  refine ⟨div_mul_cancel₀ _ (ne_of_gt hdq), hfield, ?_⟩
  rw [hfield]
  have herr := roundDec_err 2 ((consumptionStatistics store today daysBack).totalCost
    / ((consumptionStatistics store today daysBack).daysWithData : ℚ))
  have hexp : roundDec 2 ((consumptionStatistics store today daysBack).totalCost
        / ((consumptionStatistics store today daysBack).daysWithData : ℚ))
        * ((consumptionStatistics store today daysBack).daysWithData : ℚ)
      - (consumptionStatistics store today daysBack).totalCost
      = (roundDec 2 ((consumptionStatistics store today daysBack).totalCost
          / ((consumptionStatistics store today daysBack).daysWithData : ℚ))
        - (consumptionStatistics store today daysBack).totalCost
          / ((consumptionStatistics store today daysBack).daysWithData : ℚ))
        * ((consumptionStatistics store today daysBack).daysWithData : ℚ) := by
    field_simp
  rw [hexp, abs_mul, abs_of_pos hdq, mul_comm]
  apply mul_le_mul_of_nonneg_left _ hdq.le
  calc |roundDec 2 ((consumptionStatistics store today daysBack).totalCost
          / ((consumptionStatistics store today daysBack).daysWithData : ℚ))
        - (consumptionStatistics store today daysBack).totalCost
          / ((consumptionStatistics store today daysBack).daysWithData : ℚ)|
      ≤ 1 / (2 * 10 ^ 2) := herr
    _ ≤ 1 / 200 := by norm_num

/-- Seven days with one reading each (six at 14 kWh, one at 17 kWh), total
101 kWh, so `total_cost = 12.12` and the exact daily average cost
`12.12 / 7 = 1.7314...` rounds to 1.73. -/
def cexCostStore : List Row :=
  [⟨"d", 14, 1⟩, ⟨"d", 14, 25⟩, ⟨"d", 14, 49⟩, ⟨"d", 14, 73⟩,
   ⟨"d", 14, 97⟩, ⟨"d", 14, 121⟩, ⟨"d", 17, 145⟩]

theorem cexCost_dataRange : dataRange cexCostStore ((6 : ℤ) - 30) 6 = cexCostStore := by
  simp [dataRange, cexCostStore, dayOf]
  norm_num

theorem cexCost_totalConsumption :
    (consumptionStatistics cexCostStore 6 30).totalConsumption = 101 := by
  rw [consumptionStatistics]
  simp only [cexCost_dataRange]
  rw [if_neg (by simp [cexCostStore])]
  simp [cexCostStore]
  norm_num

theorem cexCost_totalCost :
    (consumptionStatistics cexCostStore 6 30).totalCost = 1212 / 100 := by
  rw [consumptionStatistics]
  simp only [cexCost_dataRange]
  rw [if_neg (by simp [cexCostStore])]
  simp [cexCostStore, ENERGY_COST_PER_KWH]
  norm_num

theorem cexCost_days :
    (consumptionStatistics cexCostStore 6 30).daysWithData = 7 := by
  rw [consumptionStatistics]
  simp only [cexCost_dataRange]
  rw [if_neg (by simp [cexCostStore])]
  simp only []
  rw [dailyTotals, List.length_map, daysPresent]
  have hmap : cexCostStore.map (fun r => dayOf r.timestamp) = [0, 1, 2, 3, 4, 5, 6] := by
    simp [cexCostStore, dayOf]
    norm_num
  rw [hmap]
  rfl

/-- Counterexample to C9 as stated: the `daily_average_cost` *returned* by
the cost analysis is rounded to 2 decimals (1.73), so multiplying it back by
`days_with_data = 7` gives 12.11, which misses `total_cost = 12.12` by a full
cent — far beyond the claimed 1e-6 tolerance. -/
theorem costAnalysis_roundtrip_counterexample :
    (consumptionStatistics cexCostStore 6 30).daysWithData = 7
    ∧ (getCostAnalysis cexCostStore 6 30).dailyAverageCost = 173 / 100
    ∧ (getCostAnalysis cexCostStore 6 30).totalCost = 1212 / 100
    ∧ ¬ |(getCostAnalysis cexCostStore 6 30).dailyAverageCost
            * ((consumptionStatistics cexCostStore 6 30).daysWithData : ℚ)
          - (getCostAnalysis cexCostStore 6 30).totalCost| ≤ 1 / 1000000 := by
  have h0 : (consumptionStatistics cexCostStore 6 30).totalConsumption ≠ 0 := by
    rw [cexCost_totalConsumption]
    norm_num
  have hdac : (getCostAnalysis cexCostStore 6 30).dailyAverageCost = 173 / 100 := by
    rw [getCostAnalysis]
    simp only [if_neg h0, cexCost_days, cexCost_totalCost]
    rw [if_pos (by norm_num)]
    rw [roundDec, roundHE]
    norm_num
  have htc : (getCostAnalysis cexCostStore 6 30).totalCost = 1212 / 100 := by
    rw [getCostAnalysis]
    simp only [if_neg h0, cexCost_totalCost]
    rw [roundDec, roundHE]
    norm_num
  refine ⟨cexCost_days, hdac, htc, ?_⟩
  rw [hdac, htc, cexCost_days]
  rw [show (173 : ℚ) / 100 * ((7 : ℕ) : ℚ) - 1212 / 100 = -(1 / 100) by push_cast; ring]
  rw [abs_neg, abs_of_nonneg (by norm_num : (0 : ℚ) ≤ 1 / 100)]
  norm_num

/-- Witness for C9's amended theorem on the same store: the unrounded round
trip is exact and the rounded one is within `7 * 0.005`. -/
theorem costAnalysis_roundtrip_witness :
    ((consumptionStatistics cexCostStore 6 30).totalCost
        / ((consumptionStatistics cexCostStore 6 30).daysWithData : ℚ))
      * ((consumptionStatistics cexCostStore 6 30).daysWithData : ℚ)
      = (consumptionStatistics cexCostStore 6 30).totalCost
    ∧ |(getCostAnalysis cexCostStore 6 30).dailyAverageCost
          * ((consumptionStatistics cexCostStore 6 30).daysWithData : ℚ)
        - (consumptionStatistics cexCostStore 6 30).totalCost|
      ≤ ((consumptionStatistics cexCostStore 6 30).daysWithData : ℚ) * (1 / 200) := by
  have h := costAnalysis_roundtrip cexCostStore 6 30
    (by rw [cexCost_totalConsumption]; norm_num)
    (by rw [cexCost_days]; norm_num)
  exact ⟨h.1, h.2.2⟩

/-- The templated recommendation sentences of
`calculate_energy_efficiency_score`. -/
inductive Recommendation
  | startMonitoring
  | reduceOverall
  | consistentDaily
  | shiftFromPeak
  | improveData
  | greatJob
deriving Repr, DecidableEq

/-- The four named factors (rounded to 1 decimal in the returned dict). -/
structure Factors where
  usageLevelF : ℚ
  consistency : ℚ
  peakManagement : ℚ
  dataCompleteness : ℚ
deriving Repr, DecidableEq

/-- The dict returned by `calculate_energy_efficiency_score`; `factors` is
`none` on the no-data branch (empty dict).  The echoed `stats_summary` entry
is the `consumptionStatistics` value and is not duplicated here. -/
structure EffScore where
  score : ℚ
  grade : String
  factors : Option Factors
  recommendations : List Recommendation
deriving Repr, DecidableEq

/-- `calculate_energy_efficiency_score(days_back)`.  `stdDaily` is the sample
standard deviation of the daily totals (`stats['std_deviation']`) — the one
irrational input; it is passed as a parameter, constrained where a theorem
needs it by `stdDaily^2 = (consumptionStatistics ...).varDaily` and
`0 ≤ stdDaily`.  The no-data branch never reads it. -/
def calculateEnergyEfficiencyScore (store : List Row) (today daysBack : ℤ)
    (stdDaily : ℚ) : EffScore :=
  let stats := consumptionStatistics store today daysBack
  if stats.totalConsumption = 0 then
    { score := 0, grade := "N/A", factors := none
      recommendations := [.startMonitoring] }
  else
    let consistency :=
      if 0 < stdDaily ∧ 0 < stats.averageDaily then
        max 0 (100 - stdDaily / stats.averageDaily * 50)
      else 50
    let usage := usageLevel stats.averageDaily
    let hp := hourlyPattern store today daysBack
    let peakM :=
      if hp = [] then 50
      else
        let pk := posSlice 17 21 hp
        let op := posSliceOuter 23 6 hp
        if pk = [] ∨ op = [] then 50
        else
          let pa := qmean pk
          let oa := qmean op
          if 0 < pa then min 100 (oa / pa * 100) else 50
    let completeness :=
      min 100 (((stats.daysWithData : ℚ) * 24) / ((daysBack : ℚ) * 24) * 100)
    let weighted := usage * (4 / 10) + consistency * (2 / 10)
      + peakM * (3 / 10) + completeness * (1 / 10)
    let grade :=
      if 90 ≤ weighted then "A+"
      else if 80 ≤ weighted then "A"
      else if 70 ≤ weighted then "B"
      else if 60 ≤ weighted then "C"
      else if 50 ≤ weighted then "D"
      else "F"
    let recs :=
      (if usage < 50 then [Recommendation.reduceOverall] else [])
      ++ (if consistency < 50 then [Recommendation.consistentDaily] else [])
      ++ (if peakM < 50 then [Recommendation.shiftFromPeak] else [])
      ++ (if completeness < 80 then [Recommendation.improveData] else [])
    { score := roundDec 1 weighted
      grade := grade
      factors := some
        { usageLevelF := roundDec 1 usage
          consistency := roundDec 1 consistency
          peakManagement := roundDec 1 peakM
          dataCompleteness := roundDec 1 completeness }
      recommendations := if recs = [] then [.greatJob] else recs }

/-- C4: on an empty reading set for the period, the efficiency score is 0
with grade "N/A" and a single explanatory recommendation, and
`detect_anomalies` returns the empty list; both are total functions of their
inputs (no exception can escape). -/
theorem emptyData_defaults (store : List Row) (today daysBack : ℤ)
    (stdDaily thrM thr now hoursBack : ℚ)
    (hrange : dataRange store (today - daysBack) today = [])
    (hrecent : recentRows now (hoursBack * 7) store = []) :
    (calculateEnergyEfficiencyScore store today daysBack stdDaily).score = 0
    ∧ (calculateEnergyEfficiencyScore store today daysBack stdDaily).grade = "N/A"
    ∧ (calculateEnergyEfficiencyScore store today daysBack stdDaily).recommendations
        = [Recommendation.startMonitoring]
    ∧ detectAnomalies thrM thr now hoursBack store = [] := by
  have hstats : (consumptionStatistics store today daysBack).totalConsumption = 0 := by
    rw [consumptionStatistics]
    simp only [hrange]
    simp
  have heff : calculateEnergyEfficiencyScore store today daysBack stdDaily
      = { score := 0, grade := "N/A", factors := none
          recommendations := [.startMonitoring] } := by
    rw [calculateEnergyEfficiencyScore]
    simp only [hstats]
    simp
  have hdet : detectAnomalies thrM thr now hoursBack store = [] := by
    rw [detectAnomalies]
    simp only [hrecent]
    simp
  rw [heff, hdet]
  exact ⟨rfl, rfl, rfl, rfl⟩

/-- Witness for C4 on the literally empty store. -/
theorem emptyData_defaults_witness :
    (calculateEnergyEfficiencyScore [] 0 30 0).score = 0
    ∧ (calculateEnergyEfficiencyScore [] 0 30 0).grade = "N/A"
    ∧ (calculateEnergyEfficiencyScore [] 0 30 0).recommendations
        = [Recommendation.startMonitoring]
    ∧ detectAnomalies 2 5 0 24 [] = [] :=
  emptyData_defaults [] 0 30 0 2 5 0 24 rfl rfl

/-! ## Trend detection (`detect_usage_trends`) -/

/-- Trend severities; unlike anomaly severities these include `positive`. -/
inductive TrendSeverity
  | low
  | medium
  | high
  | positive
deriving Repr, DecidableEq

/-- The `type` strings of trend entries. -/
inductive TrendType
  | increasingConsumption
  | decreasingConsumption
  | stableConsumption
  | highVolatility
  | lowVolatility
  | weekendSpike
  | weekendDrop
  | recentChange
deriving Repr, DecidableEq

/-- Trend `description` sentences, embedded as the numbers they interpolate.
The high-volatility sentence interpolates the coefficient of variation
(std/mean, a square root); we carry its square `cvSq = var/mean^2`. -/
inductive TrendDescription
  | increasing (slope : ℚ)
  | decreasing (slopeAbs : ℚ)
  | stable
  | highVolatility (cvSq : ℚ)
  | lowVolatility
  | weekendSpike (pct : ℚ)
  | weekendDrop (pct : ℚ)
  | recentChange (increased : Bool) (pctAbs : ℚ)
deriving Repr, DecidableEq

structure TrendEntry where
  ttype : TrendType
  description : TrendDescription
  severity : TrendSeverity
deriving Repr, DecidableEq

/-- The `summary` strings of the trend report. -/
inductive TrendSummary
  | noData
  | insufficientData
  | looksGood
  | concerning
  | mixed
deriving Repr, DecidableEq

/-- The value returned by `detect_usage_trends`.  The `analysis_period` and
`data_points` echo entries are presentation only and omitted. -/
structure TrendReport where
  trends : List TrendEntry
  summary : TrendSummary
deriving Repr, DecidableEq

/-- The ordinary-least-squares slope of `y` against `x = 0, 1, ..., n-1` —
the first coefficient of `np.polyfit(np.arange(n), y, 1)`, which for `n ≥ 2`
is the unique least-squares solution `Sxy / Sxx`. -/
def olsSlope (ys : List ℚ) : ℚ :=
  let xs := (List.range ys.length).map (fun i => (i : ℚ))
  let xbar := qmean xs
  let ybar := qmean ys
  (((xs.zip ys).map (fun p => (p.1 - xbar) * (p.2 - ybar))).sum)
    / ((xs.map (fun x => (x - xbar) ^ 2)).sum)

/-- The single overall-trend entry determined by the slope. -/
def overallEntry (s : ℚ) : TrendEntry :=
  if 1 / 10 < s then
    ⟨.increasingConsumption, .increasing s, if s < 1 then .medium else .high⟩
  else if s < -(1 / 10) then
    ⟨.decreasingConsumption, .decreasing |s|, .positive⟩
  else
    ⟨.stableConsumption, .stable, .low⟩

/-- `date.weekday()` of a day index (epoch day 0, 1970-01-01, is a Thursday,
Python weekday 3; Monday is 0). -/
def weekdayOf (day : ℤ) : ℤ := (day + 3) % 7

/-- `get_weekly_consumption_pattern(weeks_back)`: `(weekday, avg_consumption)`
rows, weekday ascending (the sorted groupby key); only these two columns are
read downstream. -/
def weeklyPattern (store : List Row) (today weeksBack : ℤ) : List (ℤ × ℚ) :=
  let data := dataRange store (today - 7 * weeksBack) today
  if data = [] then []
  else
    (((data.map (fun r => weekdayOf (dayOf r.timestamp))).dedup).insertionSort
        (· ≤ ·)).map
      (fun w => (w, qmean ((data.filter
        (fun r => weekdayOf (dayOf r.timestamp) = w)).map (·.consumption))))

/-- The volatility entries of the trend report.  The source compares
`volatility = std/mean if mean > 0 else 0` against 0.3 and 0.1; for
`mean > 0` and `std ≥ 0` these comparisons are equivalent to the squared
comparisons used here, and for `mean ≤ 0` the volatility is 0, which falls
into the `< 0.1` branch. -/
def volatilityEntries (dt : List ℚ) : List TrendEntry :=
  let mean := qmean dt
  let var := sampleVar dt
  if 0 < mean ∧ (9 / 100) * mean ^ 2 < var then
    [⟨.highVolatility, .highVolatility (var / mean ^ 2), .medium⟩]
  else if ¬ 0 < mean ∨ var < (1 / 100) * mean ^ 2 then
    [⟨.lowVolatility, .lowVolatility, .positive⟩]
  else []

/-- The weekend/weekday-skew entries.  The guard `we = [] ∨ wd = []` mirrors
the NaN produced by a mean over an empty selection, which makes both
comparisons false. -/
def weekendEntries (store : List Row) (today daysBack : ℤ) : List TrendEntry :=
  let wkd := weeklyPattern store today (Int.fdiv daysBack 7)
  if wkd = [] then []
  else
    let we := (wkd.filter (fun p => p.1 = 5 ∨ p.1 = 6)).map (·.2)
    let wd := (wkd.filter (fun p => ¬(p.1 = 5 ∨ p.1 = 6))).map (·.2)
    if we = [] ∨ wd = [] then []
    else
      let wea := qmean we
      let wda := qmean wd
      if wda * (12 / 10) < wea then
        [⟨.weekendSpike, .weekendSpike ((wea / wda - 1) * 100), .medium⟩]
      else if wea < wda * (8 / 10) then
        [⟨.weekendDrop, .weekendDrop ((1 - wea / wda) * 100), .low⟩]
      else []

/-- The recent-change entry: last 7 daily totals against all earlier ones. -/
def recentChangeEntries (dt : List ℚ) : List TrendEntry :=
  let recentW := qmean (dt.drop (dt.length - 7))
  let prevW := qmean (dt.take (dt.length - 7))
  let change := if 0 < prevW then (recentW - prevW) / prevW * 100 else 0
  if 15 < |change| then
    [⟨.recentChange, .recentChange (decide (0 < change)) |change|,
      if 30 < |change| then .high else .medium⟩]
  else []

/-- `detect_usage_trends(days_back)`. -/
def detectUsageTrends (store : List Row) (today daysBack : ℤ) : TrendReport :=
  let data := dataRange store (today - daysBack) today
  if data = [] then { trends := [], summary := .noData }
  else
    let dt := dailyTotals data
    if dt.length < 7 then { trends := [], summary := .insufficientData }
    else
      let trends :=
        [overallEntry (olsSlope dt)]
        ++ volatilityEntries dt
        ++ (if 14 ≤ dt.length then weekendEntries store today daysBack else [])
        ++ (if 14 ≤ dt.length then recentChangeEntries dt else [])
      let pos := trends.countP (fun t => t.severity == TrendSeverity.positive)
      let conc := trends.countP (fun t =>
        t.severity == TrendSeverity.medium || t.severity == TrendSeverity.high)
      { trends := trends
        summary := if conc < pos then .looksGood
          else if pos < conc then .concerning
          else .mixed }

/-- Whether an entry is the overall consumption trend. -/
def isOverallTrend (t : TrendEntry) : Bool :=
  t.ttype == TrendType.increasingConsumption
  || t.ttype == TrendType.decreasingConsumption
  || t.ttype == TrendType.stableConsumption

theorem countP_overall_volatility (dt : List ℚ) :
    (volatilityEntries dt).countP isOverallTrend = 0 := by
  rw [volatilityEntries]
  split
  · rfl
  · split
    · rfl
    · rfl

theorem countP_overall_weekend (store : List Row) (today daysBack : ℤ) :
    (weekendEntries store today daysBack).countP isOverallTrend = 0 := by
  rw [weekendEntries]
  split
  · rfl
  · simp only
    split
    · rfl
    · split
      · rfl
      · split
        · rfl
        · rfl

theorem countP_overall_recentChange (dt : List ℚ) :
    (recentChangeEntries dt).countP isOverallTrend = 0 := by
  rw [recentChangeEntries]
  split
  · split
    · rfl
    · rfl
  · rfl

theorem isOverallTrend_overallEntry (s : ℚ) :
    isOverallTrend (overallEntry s) = true := by
  rw [overallEntry]
  split
  · rfl
  · split
    · rfl
    · rfl

/-- C6: with at least 7 daily totals the report contains exactly one
overall-trend entry, namely `overallEntry` of the OLS slope of the daily
totals, classified: slope > 0.1 gives `increasing_consumption` with severity
`medium` when slope < 1 and `high` otherwise; slope < -0.1 gives
`decreasing_consumption` with severity `positive`; otherwise
`stable_consumption` with severity `low`.  With fewer than 7 daily totals an
explicit empty no-data/insufficient-data report is returned. -/
theorem detectUsageTrends_spec (store : List Row) (today daysBack : ℤ) :
    ((dailyTotals (dataRange store (today - daysBack) today)).length < 7 →
      (detectUsageTrends store today daysBack).trends = []
      ∧ ((detectUsageTrends store today daysBack).summary = TrendSummary.noData
        ∨ (detectUsageTrends store today daysBack).summary
            = TrendSummary.insufficientData))
    ∧ (7 ≤ (dailyTotals (dataRange store (today - daysBack) today)).length →
      ((detectUsageTrends store today daysBack).trends.countP isOverallTrend = 1)
      ∧ overallEntry (olsSlope (dailyTotals (dataRange store (today - daysBack) today)))
          ∈ (detectUsageTrends store today daysBack).trends)
    ∧ (∀ s : ℚ, 1 / 10 < s →
        (overallEntry s).ttype = TrendType.increasingConsumption
        ∧ (overallEntry s).description = TrendDescription.increasing s
        ∧ (overallEntry s).severity
            = (if s < 1 then TrendSeverity.medium else TrendSeverity.high))
    ∧ (∀ s : ℚ, s < -(1 / 10) →
        (overallEntry s).ttype = TrendType.decreasingConsumption
        ∧ (overallEntry s).severity = TrendSeverity.positive)
    ∧ (∀ s : ℚ, ¬ 1 / 10 < s → ¬ s < -(1 / 10) →
        (overallEntry s).ttype = TrendType.stableConsumption
        ∧ (overallEntry s).severity = TrendSeverity.low) := by
  refine ⟨?_, ?_, ?_, ?_, ?_⟩
  · intro hlt
    rw [detectUsageTrends]
    by_cases hd : dataRange store (today - daysBack) today = []
    · rw [if_pos hd]
      exact ⟨rfl, Or.inl rfl⟩
    · rw [if_neg hd]
      simp only
      rw [if_pos hlt]
      exact ⟨rfl, Or.inr rfl⟩
  · intro hge
    have hd : dataRange store (today - daysBack) today ≠ [] := by
      intro hd
      rw [hd] at hge
      have h0 : (dailyTotals ([] : List Row)).length = 0 := rfl
      omega
    rw [detectUsageTrends, if_neg hd]
    simp only
    rw [if_neg (by omega)]
    constructor
    · simp only [List.countP_append]
      rw [countP_overall_volatility]
      have h1 : (if 14 ≤ (dailyTotals (dataRange store (today - daysBack) today)).length
          then weekendEntries store today daysBack else []).countP isOverallTrend = 0 := by
        split
        · exact countP_overall_weekend store today daysBack
        · rfl
      have h2 : (if 14 ≤ (dailyTotals (dataRange store (today - daysBack) today)).length
          then recentChangeEntries (dailyTotals (dataRange store (today - daysBack) today))
          else []).countP isOverallTrend = 0 := by
        split
        · exact countP_overall_recentChange _
        · rfl
      rw [h1, h2, List.countP_singleton, isOverallTrend_overallEntry]
      rfl
    · exact List.mem_append_left _ (List.mem_append_left _
        (List.mem_append_left _ (List.mem_singleton.mpr rfl)))
  · intro s hs
    rw [overallEntry, if_pos hs]
    exact ⟨rfl, rfl, rfl⟩
  · intro s hs
    have hns : ¬ 1 / 10 < s := by linarith
    rw [overallEntry, if_neg hns, if_pos hs]
    exact ⟨rfl, rfl⟩
  · intro s h1 h2
    rw [overallEntry, if_neg h1, if_neg h2]
    exact ⟨rfl, rfl⟩

/-- Ten days with one reading each, increasing by exactly 0.5 kWh/day. -/
def witTrendStore : List Row :=
  [⟨"d", 10, 1⟩, ⟨"d", 21/2, 25⟩, ⟨"d", 11, 49⟩, ⟨"d", 23/2, 73⟩, ⟨"d", 12, 97⟩,
   ⟨"d", 25/2, 121⟩, ⟨"d", 13, 145⟩, ⟨"d", 27/2, 169⟩, ⟨"d", 14, 193⟩,
   ⟨"d", 29/2, 217⟩]

theorem witTrend_dataRange : dataRange witTrendStore ((9 : ℤ) - 60) 9 = witTrendStore := by
  simp [dataRange, witTrendStore, dayOf]
  norm_num

theorem witTrend_dailyTotals : dailyTotals witTrendStore
    = [10, 21/2, 11, 23/2, 12, 25/2, 13, 27/2, 14, 29/2] := by
  have hmap : witTrendStore.map (fun r => dayOf r.timestamp)
      = [0, 1, 2, 3, 4, 5, 6, 7, 8, 9] := by
    simp [witTrendStore, dayOf]
    norm_num
  have hdp : daysPresent witTrendStore = [0, 1, 2, 3, 4, 5, 6, 7, 8, 9] := by
    rw [daysPresent, hmap]
    rfl
  rw [dailyTotals, hdp]
  simp [witTrendStore, dayOf]
  norm_num

theorem witTrend_slope :
    olsSlope [10, 21/2, 11, 23/2, 12, 25/2, 13, 27/2, 14, 29/2] = 1 / 2 := by
  rw [olsSlope]
  have h10 : List.range (10 : ℕ) = [0,1,2,3,4,5,6,7,8,9] := rfl
  simp [h10, qmean]
  norm_num

/-- Witness for C6: a series increasing by exactly 0.5 kWh/day for 10 days
yields exactly one overall-trend entry — `increasing_consumption` with
severity `medium` (slope 0.5 < 1). -/
theorem detectUsageTrends_spec_witness :
    ((detectUsageTrends witTrendStore 9 60).trends.countP isOverallTrend = 1)
    ∧ (⟨TrendType.increasingConsumption, TrendDescription.increasing (1 / 2),
        TrendSeverity.medium⟩ : TrendEntry)
      ∈ (detectUsageTrends witTrendStore 9 60).trends := by
  have hdt : dailyTotals (dataRange witTrendStore ((9 : ℤ) - 60) 9)
      = [10, 21/2, 11, 23/2, 12, 25/2, 13, 27/2, 14, 29/2] := by
    rw [witTrend_dataRange, witTrend_dailyTotals]
  have h := (detectUsageTrends_spec witTrendStore 9 60).2.1
    (by rw [hdt]; norm_num)
  obtain ⟨hcount, hmem⟩ := h
  have hslope : olsSlope (dailyTotals (dataRange witTrendStore ((9 : ℤ) - 60) 9))
      = 1 / 2 := by
    rw [hdt, witTrend_slope]
  have hentry : overallEntry ((1 : ℚ) / 2)
      = ⟨TrendType.increasingConsumption, TrendDescription.increasing (1 / 2),
          TrendSeverity.medium⟩ := by
    rw [overallEntry, if_pos (by norm_num)]
    rw [if_pos (by norm_num)]
  rw [hslope, hentry] at hmem
  exact ⟨hcount, hmem⟩

/-! ## Exception behaviour of the anomaly engine

The detectors receive a pandas frame; the failure mode named by the spec
("unexpected missing column", malformed upstream data) is modelled by a raw
frame that may lack the `consumption` column, so that reading that column
raises (`KeyError`).  Raising is the `Except Unit` monad.  Of the four
detectors, `_detect_statistical_anomalies`, `_detect_device_anomalies` and
`_detect_pattern_anomalies` wrap their bodies in `try/except`;
`_detect_high_usage` does not, and `detect_anomalies` itself has no handler
either. -/

/-- A raw frame: rows plus whether the `consumption` column is present. -/
structure RawStore where
  rows : List Row
  hasConsumption : Bool
deriving Repr, DecidableEq

/-- `row['consumption']` inside an `iterrows` loop: raises iff the column is
missing. -/
def getCons (s : RawStore) (r : Row) : Except Unit ℚ :=
  if s.hasConsumption then .ok r.consumption else .error ()

/-- `frame['consumption']` as a column pull (for `.mean()`, `.std()`,
groupbys): raises iff the column is missing, regardless of how many rows the
frame has. -/
def consColumn (s : RawStore) (l : List Row) : Except Unit (List ℚ) :=
  if s.hasConsumption then .ok (l.map (·.consumption)) else .error ()

/-- The body of `_detect_statistical_anomalies` (the code inside its `try`),
with every consumption read explicit in the `Except` monad. -/
def statBodyE (s : RawStore) (thrM now hoursBack : ℚ) : Except Unit (List Anomaly) :=
  if s.rows.length < 10 then .ok []
  else
    (uniqueDevices s.rows).foldlM (fun acc d =>
      if (deviceRows s.rows d).length < 10
          ∨ deviceRows (recentRows now hoursBack s.rows) d = [] then pure acc
      else do
        let cons ← consColumn s (deviceRows s.rows d)
        let mn := qmean cons
        let v := sampleVar cons
        if v = 0 then pure acc
        else
          (deviceRows (recentRows now hoursBack s.rows) d).foldlM (fun acc2 r => do
            let c ← getCons s r
            pure (acc2 ++ (if zExceeds c mn v thrM then
              [mkStatOutlier thrM d mn v { r with consumption := c }] else []))) acc) []

/-- `_detect_statistical_anomalies` with its `try/except`: on failure the
source returns the anomalies accumulated so far, which is `[]`, because the
only modelled failure (the missing column) is raised by the first device
that passes the guards, before anything has been appended. -/
def statE (s : RawStore) (thrM now hoursBack : ℚ) : List Anomaly :=
  match statBodyE s thrM now hoursBack with
  | .ok l => l
  | .error _ => []

/-- The body of `_detect_high_usage` — which has **no** `try/except`. -/
def highUsageBodyE (s : RawStore) (thr now hoursBack : ℚ) : Except Unit (List Anomaly) :=
  (recentRows now hoursBack s.rows).foldlM (fun acc r => do
    let c ← getCons s r
    pure (acc ++ (if thr < c then [mkHighUsage thr { r with consumption := c }]
      else []))) []

/-- The consumption-drop half of `_detect_device_anomalies` (inside its
`try`); the historical and recent means pull the column before the
`pd.isna(historical_avg)` check. -/
def dropBodyE (s : RawStore) (now hoursBack : ℚ) : Except Unit (List Anomaly) :=
  (uniqueDevices (recentRows now hoursBack s.rows)).foldlM (fun acc d =>
    if (deviceRows s.rows d).length < 5
        ∨ deviceRows (recentRows now hoursBack s.rows) d = [] then pure acc
    else do
      let hcons ← consColumn s
        ((deviceRows s.rows d).filter (fun r => r.timestamp < now - hoursBack))
      let rcons ← consColumn s (deviceRows (recentRows now hoursBack s.rows) d)
      if (deviceRows s.rows d).filter (fun r => r.timestamp < now - hoursBack) = []
      then pure acc
      else
        if qmean rcons < qmean hcons * (3 / 10) ∧ (1 / 10 : ℚ) < qmean hcons then
          pure (acc ++ [mkDrop d (qmean rcons) (qmean hcons)
            (((deviceRows (recentRows now hoursBack s.rows) d).map
              (·.timestamp)).getLastD 0)])
        else pure acc) []

/-- `_detect_device_anomalies` with its `try/except`: the inactive loop
precedes every consumption access and always completes, so on a failure in
the drop loop the accumulated (and returned) list is exactly the inactive
anomalies — the modelled failure is raised by the first guard-passing device
before any drop anomaly is appended. -/
def deviceAnomaliesE (s : RawStore) (now hoursBack : ℚ) : List Anomaly :=
  match dropBodyE s now hoursBack with
  | .ok l => inactiveAnomalies now s.rows ++ l
  | .error _ => inactiveAnomalies now s.rows

/-- The body of `_detect_pattern_anomalies` (inside its `try`): the two
hourly groupby means pull the consumption column of both windows after the
emptiness checks; in the `ok` case the pulled values are exactly the ones the
hour-ratio computation reads. -/
def patternBodyE (s : RawStore) (now hoursBack : ℚ) : Except Unit (List Anomaly) :=
  if s.rows.length < 24 then .ok []
  else
    if recentRows now hoursBack s.rows = []
        ∨ s.rows.filter (fun r => r.timestamp < now - hoursBack) = [] then .ok []
    else do
      let _ ← consColumn s (recentRows now hoursBack s.rows)
      let _ ← consColumn s (s.rows.filter (fun r => r.timestamp < now - hoursBack))
      pure ((hoursIn (recentRows now hoursBack s.rows)).filterMap (fun h =>
        if h ∈ hoursIn (s.rows.filter (fun r => r.timestamp < now - hoursBack)) then
          if 0 < hourlyMean (s.rows.filter (fun r => r.timestamp < now - hoursBack)) h
          then
            if 2 < hourlyMean (recentRows now hoursBack s.rows) h
                  / hourlyMean (s.rows.filter (fun r => r.timestamp < now - hoursBack)) h
                ∨ hourlyMean (recentRows now hoursBack s.rows) h
                  / hourlyMean (s.rows.filter (fun r => r.timestamp < now - hoursBack)) h
                  < 1 / 2 then
              some (mkPattern now h (hourlyMean (recentRows now hoursBack s.rows) h)
                (hourlyMean (s.rows.filter (fun r => r.timestamp < now - hoursBack)) h))
            else none
          else none
        else none))

/-- `_detect_pattern_anomalies` with its `try/except`: the modelled failure
is raised before anything is appended, so the caught result is `[]`. -/
def patternE (s : RawStore) (now hoursBack : ℚ) : List Anomaly :=
  match patternBodyE s now hoursBack with
  | .ok l => l
  | .error _ => []

/-- `detect_anomalies` over a raw store: the three guarded detectors cannot
raise; `_detect_high_usage` can, and nothing catches it. -/
def detectAnomaliesE (s : RawStore) (thrM thr now hoursBack : ℚ) :
    Except Unit (List Anomaly) :=
  if recentRows now (hoursBack * 7) s.rows = [] then .ok []
  else
    let data : RawStore := ⟨recentRows now (hoursBack * 7) s.rows, s.hasConsumption⟩
    do
      let hu ← highUsageBodyE data thr now hoursBack
      pure (statE data thrM now hoursBack ++ hu
        ++ deviceAnomaliesE data now hoursBack ++ patternE data now hoursBack)

theorem getCons_ok {s : RawStore} (h : s.hasConsumption = true) (r : Row) :
    getCons s r = .ok r.consumption := by
  simp [getCons, h]

theorem consColumn_ok {s : RawStore} (h : s.hasConsumption = true) (l : List Row) :
    consColumn s l = .ok (l.map (·.consumption)) := by
  simp [consColumn, h]

theorem flatMap_ite_singleton {α β : Type} (l : List α) (p : α → Prop)
    [DecidablePred p] (q : α → β) :
    l.flatMap (fun a => if p a then [q a] else [])
      = l.filterMap (fun a => if p a then some (q a) else none) := by
  induction l with
  | nil => rfl
  | cons x xs ih =>
    rw [List.flatMap_cons, List.filterMap_cons, ih]
    by_cases hx : p x
    · simp [hx]
    · simp [hx]

theorem ok_bind {α β : Type} (a : α) (f : α → Except Unit β) :
    (Except.ok a >>= f : Except Unit β) = f a := rfl

theorem foldlM_getCons_ok {β : Type} (s : RawStore) (h : s.hasConsumption = true)
    (g : ℚ → Row → List β) : ∀ (l : List Row) (acc : List β),
    (l.foldlM (fun acc r => do
        let c ← getCons s r
        pure (acc ++ g c r)) acc : Except Unit (List β))
      = .ok (acc ++ l.flatMap (fun r => g r.consumption r))
  | [], acc => by simp; rfl
  | r :: xs, acc => by
    simp only [List.foldlM_cons]
    have hg : (do
        let c ← getCons s r
        pure (acc ++ g c r) : Except Unit (List β))
        = pure (acc ++ g r.consumption r) := by
      rw [getCons_ok h, ok_bind]
    rw [hg, pure_bind, foldlM_getCons_ok s h g xs (acc ++ g r.consumption r),
      List.flatMap_cons, List.append_assoc]

theorem highUsage_fold_error (s : RawStore) (h : s.hasConsumption = false)
    (thr : ℚ) (l : List Row) (hl : l ≠ []) (acc : List Anomaly) :
    (l.foldlM (fun acc r => do
        let c ← getCons s r
        pure (acc ++ (if thr < c then [mkHighUsage thr { r with consumption := c }]
          else []))) acc : Except Unit (List Anomaly))
      = .error () := by
  cases l with
  | nil => exact absurd rfl hl
  | cons r xs =>
    rw [List.foldlM_cons]
    simp only [getCons, h, if_false]
    rfl

theorem highUsageBodyE_ok (s : RawStore) (h : s.hasConsumption = true)
    (thr now hoursBack : ℚ) :
    highUsageBodyE s thr now hoursBack
      = .ok (detectHighUsage thr now hoursBack s.rows) := by
  rw [highUsageBodyE, detectHighUsage,
    foldlM_getCons_ok s h (fun c r =>
      if thr < c then [mkHighUsage thr { r with consumption := c }] else [])]
  rw [List.nil_append, flatMap_ite_singleton]

theorem highUsageBodyE_error (s : RawStore) (h : s.hasConsumption = false)
    (thr now hoursBack : ℚ) (hne : recentRows now hoursBack s.rows ≠ []) :
    highUsageBodyE s thr now hoursBack = .error () := by
  rw [highUsageBodyE]
  exact highUsage_fold_error s h thr _ hne []

theorem foldlM_step_ok {α β : Type} (step : List β → α → Except Unit (List β))
    (f : α → List β) (hstep : ∀ acc a, step acc a = .ok (acc ++ f a)) :
    ∀ (l : List α) (acc : List β),
    (l.foldlM step acc : Except Unit (List β)) = .ok (acc ++ l.flatMap f)
  | [], acc => by simp; rfl
  | x :: xs, acc => by
    simp only [List.foldlM_cons]
    rw [hstep acc x,
      show ((Except.ok (acc ++ f x) : Except Unit (List β))
        >>= fun b => xs.foldlM step b) = xs.foldlM step (acc ++ f x) from rfl,
      foldlM_step_ok step f hstep xs (acc ++ f x), List.flatMap_cons,
      List.append_assoc]

theorem statBodyE_ok (s : RawStore) (h : s.hasConsumption = true)
    (thrM now hoursBack : ℚ) :
    statBodyE s thrM now hoursBack
      = .ok (detectStatistical thrM now hoursBack s.rows) := by
  rw [statBodyE, detectStatistical]
  by_cases hlen : s.rows.length < 10
  · rw [if_pos hlen, if_pos hlen]
  · rw [if_neg hlen, if_neg hlen]
    apply foldlM_step_ok
    intro acc d
    by_cases hg : (deviceRows s.rows d).length < 10
        ∨ deviceRows (recentRows now hoursBack s.rows) d = []
    · rw [if_pos hg]
      simp only [if_pos hg]
      simp
      rfl
    · rw [if_neg hg]
      simp only [if_neg hg]
      rw [consColumn_ok h, ok_bind]
      by_cases hv : sampleVar ((deviceRows s.rows d).map (·.consumption)) = 0
      · rw [if_pos hv, if_pos hv]
        simp
        rfl
      · rw [if_neg hv, if_neg hv]
        rw [foldlM_getCons_ok s h (fun c r =>
          if zExceeds c (qmean ((deviceRows s.rows d).map (·.consumption)))
              (sampleVar ((deviceRows s.rows d).map (·.consumption))) thrM then
            [mkStatOutlier thrM d (qmean ((deviceRows s.rows d).map (·.consumption)))
              (sampleVar ((deviceRows s.rows d).map (·.consumption)))
              { r with consumption := c }]
          else [])]
        rw [flatMap_ite_singleton]

theorem statE_ok (s : RawStore) (h : s.hasConsumption = true)
    (thrM now hoursBack : ℚ) :
    statE s thrM now hoursBack = detectStatistical thrM now hoursBack s.rows := by
  rw [statE, statBodyE_ok s h]

theorem dropBodyE_ok (s : RawStore) (h : s.hasConsumption = true)
    (now hoursBack : ℚ) :
    dropBodyE s now hoursBack = .ok (dropAnomalies now hoursBack s.rows) := by
  rw [dropBodyE, dropAnomalies]
  have hfm : ∀ (f : String → Option Anomaly) (l : List String),
      l.filterMap f = l.flatMap (fun d => (f d).toList) := by
    intro f l
    induction l with
    | nil => rfl
    | cons x xs ih =>
      rw [List.filterMap_cons, List.flatMap_cons, ← ih]
      cases f x <;> simp
  rw [hfm]
  apply foldlM_step_ok
  intro acc d
  by_cases hg : (deviceRows s.rows d).length < 5
      ∨ deviceRows (recentRows now hoursBack s.rows) d = []
  · rw [if_pos hg]
    simp only [if_pos hg]
    simp
    rfl
  · rw [if_neg hg]
    simp only [if_neg hg]
    rw [consColumn_ok h, ok_bind, consColumn_ok h, ok_bind]
    by_cases hh : (deviceRows s.rows d).filter (fun r => r.timestamp < now - hoursBack)
        = []
    · rw [if_pos hh]
      simp only [if_pos hh]
      simp
      rfl
    · rw [if_neg hh]
      simp only [if_neg hh]
      split
      · rfl
      · show (Except.ok acc : Except Unit (List Anomaly)) = Except.ok (acc ++ [])
        rw [List.append_nil]

theorem deviceAnomaliesE_ok (s : RawStore) (h : s.hasConsumption = true)
    (now hoursBack : ℚ) :
    deviceAnomaliesE s now hoursBack = detectDeviceAnomalies now hoursBack s.rows := by
  rw [deviceAnomaliesE, dropBodyE_ok s h, detectDeviceAnomalies]

theorem patternBodyE_ok (s : RawStore) (h : s.hasConsumption = true)
    (now hoursBack : ℚ) :
    patternBodyE s now hoursBack = .ok (detectPattern now hoursBack s.rows) := by
  rw [patternBodyE, detectPattern]
  by_cases hlen : s.rows.length < 24
  · rw [if_pos hlen, if_pos hlen]
  · rw [if_neg hlen, if_neg hlen]
    simp only
    by_cases hre : recentRows now hoursBack s.rows = []
        ∨ s.rows.filter (fun r => r.timestamp < now - hoursBack) = []
    · rw [if_pos hre, if_pos hre]
    · rw [if_neg hre, if_neg hre]
      rw [consColumn_ok h, ok_bind, consColumn_ok h, ok_bind]
      rfl

theorem patternE_ok (s : RawStore) (h : s.hasConsumption = true)
    (now hoursBack : ℚ) :
    patternE s now hoursBack = detectPattern now hoursBack s.rows := by
  rw [patternE, patternBodyE_ok s h]

/-- C2 (amended): failures inside the statistical, device-health and
pattern detectors are caught and suppressed, and with an intact frame the
engine returns exactly the concatenated detector output; but
`_detect_high_usage` has no exception handler — and `detect_anomalies` none
around it — so the engine raises exactly when the consumption column is
missing and the recent window is non-empty. -/
theorem detectAnomaliesE_spec (s : RawStore) (thrM thr now hoursBack : ℚ) :
    (s.hasConsumption = true →
      detectAnomaliesE s thrM thr now hoursBack
        = .ok (detectAnomalies thrM thr now hoursBack s.rows))
    ∧ (detectAnomaliesE s thrM thr now hoursBack = .error () ↔
        s.hasConsumption = false
        ∧ recentRows now hoursBack (recentRows now (hoursBack * 7) s.rows) ≠ []) := by
  have hok : s.hasConsumption = true →
      detectAnomaliesE s thrM thr now hoursBack
        = .ok (detectAnomalies thrM thr now hoursBack s.rows) := by
    intro h
    rw [detectAnomaliesE, detectAnomalies]
    by_cases hd : recentRows now (hoursBack * 7) s.rows = []
    · rw [if_pos hd]
      simp only [hd]
      simp
    · rw [if_neg hd]
      simp only
      rw [if_neg hd]
      rw [highUsageBodyE_ok ⟨recentRows now (hoursBack * 7) s.rows, s.hasConsumption⟩ h,
        ok_bind]
      rw [statE_ok ⟨recentRows now (hoursBack * 7) s.rows, s.hasConsumption⟩ h,
        deviceAnomaliesE_ok ⟨recentRows now (hoursBack * 7) s.rows, s.hasConsumption⟩ h,
        patternE_ok ⟨recentRows now (hoursBack * 7) s.rows, s.hasConsumption⟩ h]
      rfl
  have hempty : recentRows now hoursBack (recentRows now (hoursBack * 7) s.rows) = [] →
      detectAnomaliesE s thrM thr now hoursBack ≠ .error () := by
    intro hre herr
    rw [detectAnomaliesE] at herr
    by_cases hd : recentRows now (hoursBack * 7) s.rows = []
    · rw [if_pos hd] at herr
      exact Except.noConfusion herr
    · rw [if_neg hd] at herr
      simp only at herr
      rw [highUsageBodyE, hre] at herr
      rw [show (([] : List Row).foldlM (fun acc r => do
          let c ← getCons ⟨recentRows now (hoursBack * 7) s.rows, s.hasConsumption⟩ r
          pure (acc ++ (if thr < c then [mkHighUsage thr { r with consumption := c }]
            else []))) [] : Except Unit (List Anomaly)) = .ok [] from rfl] at herr
      exact Except.noConfusion herr
  refine ⟨hok, ⟨?_, ?_⟩⟩
  · intro herr
    constructor
    · cases hc : s.hasConsumption
      · rfl
      · rw [hok hc] at herr
        exact Except.noConfusion herr
    · intro hre
      exact hempty hre herr
  · rintro ⟨hf, hne⟩
    have hd : recentRows now (hoursBack * 7) s.rows ≠ [] := by
      intro hd
      rw [hd] at hne
      exact hne rfl
    rw [detectAnomaliesE, if_neg hd]
    simp only
    rw [highUsageBodyE_error ⟨recentRows now (hoursBack * 7) s.rows, s.hasConsumption⟩
      hf thr now hoursBack hne]
    rfl

/-- A raw store with one recent reading and no consumption column. -/
def cexRawStore : RawStore := ⟨[⟨"d", 6, -1⟩], false⟩

/-- Counterexample to C2 as stated: with the consumption column missing and a
non-empty recent window, the uncaught failure inside `_detect_high_usage`
propagates out of `detect_anomalies` as an exception. -/
theorem detectAnomalies_exception_counterexample :
    detectAnomaliesE cexRawStore 2 5 0 24 = .error () := by
  have hd : recentRows 0 (24 * 7) cexRawStore.rows = [⟨"d", 6, -1⟩] := by
    simp [recentRows, cexRawStore]
    norm_num
  have hne : recentRows 0 24 (recentRows 0 (24 * 7) cexRawStore.rows) ≠ [] := by
    rw [hd]
    simp [recentRows]
  rw [detectAnomaliesE, if_neg (by rw [hd]; simp)]
  simp only
  rw [highUsageBodyE_error ⟨recentRows 0 (24 * 7) cexRawStore.rows,
    cexRawStore.hasConsumption⟩ rfl 5 0 24 hne]
  rfl

/-- Witness for C2's amended theorem: with the column intact, the engine
returns the pure detectors' concatenated output on the same one-reading
store. -/
theorem detectAnomaliesE_spec_witness :
    detectAnomaliesE ⟨[⟨"d", 6, -1⟩], true⟩ 2 5 0 24
      = .ok (detectAnomalies 2 5 0 24 [⟨"d", 6, -1⟩]) :=
  (detectAnomaliesE_spec ⟨[⟨"d", 6, -1⟩], true⟩ 2 5 0 24).1 rfl

end EnergyPlatform
